import Mathlib

/-!
Verification of the credential/session lifecycle, at-rest field encryption and
encrypted backup/restore core of the PostureView backend.

The Python sources are shallowly embedded: pure functions become Lean
functions, the ORM session becomes explicit state passing over list-backed
tables, fallible code returns `Except`/`Option`.  Third-party collaborators
(the Fernet cipher, sha256, bcrypt, JWT signing, JSON byte serialization)
are modelled as function parameters; each theorem assumes only the
documented contract of the collaborator it needs, stated locally.
-/

/-- Python exception outcomes surfaced by the embedded code.
`http` mirrors FastAPI `HTTPException(status_code, detail)`;
`invalidToken` mirrors `cryptography.fernet.InvalidToken`;
`typeError` / `valueError` mirror the stdlib exceptions;
`multipleResults` mirrors SQLAlchemy `MultipleResultsFound`. -/
inductive Err where
  | http (status : Nat) (detail : String)
  | invalidToken
  | typeError
  | valueError
  | multipleResults
deriving DecidableEq, Repr

/-- SQLAlchemy `Result.scalar_one_or_none()`: `none` for zero rows, the row for
exactly one, and a raised `MultipleResultsFound` otherwise. -/
def scalarOneOrNone {α : Type} : List α → Except Err (Option α)
  | [] => .ok none
  | [x] => .ok (some x)
  | _ :: _ :: _ => .error .multipleResults

/-- Python `s.startswith(pre)`, expressed on character lists. -/
def pyStartsWith (s pre : String) : Bool :=
  pre.toList.isPrefixOf s.toList

/-! ## Field Encryption Codec (`app/services/encryption_service.py`)

The Fernet cipher object is an external collaborator; `FernetI` is its
interface.  `decStr`/`decBytes` return `none` where the library raises
`InvalidToken` (authentication failure). -/

/-- Interface of an initialized `cryptography.fernet.Fernet` object.
Strings stand for Python `str` values (`encrypt(value.encode()).decode()`
composed into one string-level operation); `List Nat` stands for `bytes`. -/
structure FernetI where
  encStr : String → String
  decStr : String → Option String
  encBytes : List Nat → List Nat
  decBytes : List Nat → Option (List Nat)

namespace EncSvc

/-- `encrypt` from `encryption_service.py` (lines 30-33): `None` and `""` are
falsy and returned unchanged; otherwise the Fernet ciphertext is returned. -/
def encrypt (F : FernetI) : Option String → Option String
  | none => none
  | some v => if v = "" then some v else some (F.encStr v)

/-- `decrypt` from `encryption_service.py` (lines 36-42): falsy values pass
through; `InvalidToken` is caught and the sentinel string is returned. -/
def decrypt (F : FernetI) : Option String → Option String
  | none => none
  | some v =>
    if v = "" then some v else
      match F.decStr v with
      | some p => some p
      | none => some "[decryption failed]"

/-- `encrypt_bytes` from `encryption_service.py` (lines 45-46). -/
def encrypt_bytes (F : FernetI) (data : List Nat) : List Nat :=
  F.encBytes data

/-- `decrypt_bytes` from `encryption_service.py` (lines 49-50): no handler, so
an `InvalidToken` failure propagates to the caller. -/
def decrypt_bytes (F : FernetI) (data : List Nat) : Except Err (List Nat) :=
  match F.decBytes data with
  | some r => .ok r
  | none => .error .invalidToken

end EncSvc

/-- A concrete Fernet stand-in used to instantiate witnesses: prepends the
real Fernet marker and inverts it.  It satisfies the roundtrip and
prefix contracts assumed of the library. -/
def toyFernet : FernetI where
  encStr s := "gAAAAA" ++ s
  decStr s := if "gAAAAA".toList.isPrefixOf s.toList then some (String.mk (s.toList.drop 6)) else none
  encBytes b := [103, 65, 65, 65, 65, 65] ++ b
  decBytes b := if b.take 6 = [103, 65, 65, 65, 65, 65] then some (b.drop 6) else none

/-- C2: decrypt-encrypt roundtrip on non-empty strings and on byte sequences
(under the Fernet roundtrip contract at the value in question), `None`
passthrough for both directions, and empty-string passthrough for both. -/
theorem c2_encrypt_decrypt_roundtrip (F : FernetI) :
    (∀ s : String, s ≠ "" → F.encStr s ≠ "" → F.decStr (F.encStr s) = some s →
      EncSvc.decrypt F (EncSvc.encrypt F (some s)) = some s)
    ∧ (∀ b : List Nat, F.decBytes (F.encBytes b) = some b →
      EncSvc.decrypt_bytes F (EncSvc.encrypt_bytes F b) = .ok b)
    ∧ EncSvc.encrypt F none = none
    ∧ EncSvc.decrypt F none = none
    ∧ EncSvc.encrypt F (some "") = some ""
    ∧ EncSvc.decrypt F (some "") = some "" := by
  refine ⟨?_, ?_, rfl, rfl, by simp [EncSvc.encrypt], by simp [EncSvc.decrypt]⟩
  · intro s hs hne hrt
    simp [EncSvc.encrypt, EncSvc.decrypt, hs, hne, hrt]
  · intro b hrt
    simp [EncSvc.encrypt_bytes, EncSvc.decrypt_bytes, hrt]

/-- Witness for C2 at a concrete Fernet instance and concrete values. -/
theorem c2_encrypt_decrypt_roundtrip_witness :
    EncSvc.decrypt toyFernet (EncSvc.encrypt toyFernet (some "hi")) = some "hi"
    ∧ EncSvc.decrypt_bytes toyFernet (EncSvc.encrypt_bytes toyFernet [7, 8]) = .ok [7, 8] :=
  ⟨(c2_encrypt_decrypt_roundtrip toyFernet).1 "hi" (by decide) (by decide) (by decide),
   (c2_encrypt_decrypt_roundtrip toyFernet).2.1 [7, 8] (by decide)⟩

/-- C6 counterexample: the empty string is not valid ciphertext under the
current key (Fernet rejects it), yet `decrypt` returns it unchanged, not the
sentinel — the falsy passthrough precedes the decryption attempt. -/
theorem c6_sentinel_counterexample :
    toyFernet.decStr "" = none
    ∧ EncSvc.decrypt toyFernet (some "") = some ""
    ∧ some "" ≠ some "[decryption failed]" := by
  refine ⟨by decide, by simp [EncSvc.decrypt], by decide⟩

/-- C6 amended: for every NON-EMPTY text value rejected by the cipher
(tampered, foreign key, or legacy plaintext), `decrypt` returns the literal
sentinel and never raises; a byte sequence failing authenticated decryption
makes `decrypt_bytes` propagate the `InvalidToken` error to the caller. -/
theorem c6_sentinel_and_bytes_failure (F : FernetI) :
    (∀ v : String, v ≠ "" → F.decStr v = none →
      EncSvc.decrypt F (some v) = some "[decryption failed]")
    ∧ (∀ d : List Nat, F.decBytes d = none →
      EncSvc.decrypt_bytes F d = .error .invalidToken) := by
  constructor
  · intro v hv hdec
    simp [EncSvc.decrypt, hv, hdec]
  · intro d hdec
    simp [EncSvc.decrypt_bytes, hdec]

/-- Witness for C6 (amended) at a legacy-plaintext string and tampered bytes. -/
theorem c6_sentinel_and_bytes_failure_witness :
    EncSvc.decrypt toyFernet (some "legacy plaintext") = some "[decryption failed]"
    ∧ EncSvc.decrypt_bytes toyFernet [1, 2, 3] = .error .invalidToken :=
  ⟨(c6_sentinel_and_bytes_failure toyFernet).1 "legacy plaintext" (by decide) (by decide),
   (c6_sentinel_and_bytes_failure toyFernet).2 [1, 2, 3] (by decide)⟩

/-! ## Accounts and session tokens (`app/models/user.py`, `app/services/auth_service.py`)

`sha256` (token hashing), bcrypt verification and JWT signing are external
collaborators and appear as function parameters.  The session is projected
onto the two tables this path touches. -/

/-- `User` ORM row (timestamps other than `last_login_at` are not read by the
modelled paths and are omitted). -/
structure User where
  id : String
  username : String
  email : String
  password_hash : String
  full_name : String
  role : String
  is_active : Bool
  last_login_at : Option Nat
deriving DecidableEq, Repr

/-- `RefreshToken` ORM row.  The uuid primary key is generated randomly and
never read by the modelled paths; a row is identified by its match against
the rotation predicate, which `scalar_one_or_none` guarantees is unique
whenever a rotation proceeds. -/
structure RefreshTokenRow where
  user_id : String
  token_hash : String
  expires_at : Nat
  revoked : Bool
deriving DecidableEq, Repr

/-- The auth-facing projection of the relational store. -/
structure AuthDB where
  users : List User
  tokens : List RefreshTokenRow
deriving DecidableEq, Repr

namespace AuthSvc

/-- `settings.ACCESS_TOKEN_EXPIRE_MINUTES` (config default). -/
def ACCESS_TOKEN_EXPIRE_MINUTES : Nat := 15

/-- `settings.REFRESH_TOKEN_EXPIRE_DAYS` (config default). -/
def REFRESH_TOKEN_EXPIRE_DAYS : Nat := 7

/-- The claim set of an access token before JWT signing (`create_access_token`
payload).  Time is modelled in seconds. -/
structure AccessPayload where
  sub : String
  username : String
  role : String
  exp : Nat
deriving DecidableEq, Repr

/-- `create_access_token` (auth_service.py lines 24-32); `jwtEncode` models
`jose.jwt.encode` with the server secret. -/
def create_access_token (jwtEncode : AccessPayload → String) (now : Nat) (u : User) : String :=
  jwtEncode ⟨u.id, u.username, u.role, now + ACCESS_TOKEN_EXPIRE_MINUTES * 60⟩

/-- `authenticate_user` (auth_service.py lines 50-57); `verify` models
`pwd_context.verify` (bcrypt). -/
def authenticate_user (verify : String → String → Bool) (db : AuthDB)
    (username password : String) : Except Err (Option User) :=
  match scalarOneOrNone (db.users.filter (fun u => u.username == username)) with
  | .error e => .error e
  | .ok none => .ok none
  | .ok (some u) =>
    if !u.is_active then .ok none
    else if !verify password u.password_hash then .ok none
    else .ok (some u)

/-- `create_refresh_token` (auth_service.py lines 60-70): the fresh random
uuid4 value is supplied as `tokenValue`; only its hash is persisted, with a
7-day expiry, and the raw value is returned.  `hashTok` models
`hashlib.sha256(...).hexdigest()`. -/
def create_refresh_token (hashTok : String → String) (db : AuthDB) (now : Nat)
    (u : User) (tokenValue : String) : String × AuthDB :=
  (tokenValue,
   { db with tokens := db.tokens ++
       [⟨u.id, hashTok tokenValue, now + REFRESH_TOKEN_EXPIRE_DAYS * 86400, false⟩] })

/-- The `where` clause of the rotation lookup (auth_service.py lines 75-81):
matching hash, not revoked, not expired. -/
def tokenEligible (now : Nat) (h : String) (rt : RefreshTokenRow) : Bool :=
  rt.token_hash == h && rt.revoked == false && decide (now < rt.expires_at)

/-- `validate_refresh_token` (auth_service.py lines 73-95).  The second
component is the session state as left behind by the call: the rotation
commit happens before the owner lookup, so it survives even when the result
is `none` or an error.  The matched row is updated through the eligibility
predicate it was selected by (unique by `scalar_one_or_none`). -/
def validate_refresh_token (hashTok : String → String) (db : AuthDB) (now : Nat)
    (token_value : String) : Except Err (Option User) × AuthDB :=
  let h := hashTok token_value
  match scalarOneOrNone (db.tokens.filter (tokenEligible now h)) with
  | .error e => (.error e, db)
  | .ok none => (.ok none, db)
  | .ok (some rt) =>
    let rotated := db.tokens.map
      (fun t => if tokenEligible now h t then { t with revoked := true } else t)
    let db2 : AuthDB := { db with tokens := rotated }
    match scalarOneOrNone (db2.users.filter (fun u => u.id == rt.user_id)) with
    | .error e => (.error e, db2)
    | .ok none => (.ok none, db2)
    | .ok (some u) => (if !u.is_active then .ok none else .ok (some u), db2)

/-- `ensure_admin_exists` (auth_service.py lines 107-122): seed an admin user
(from config defaults) only when the users table is empty.  `hashPw` models
`pwd_context.hash`. -/
def ensure_admin_exists (hashPw : String → String) (db : AuthDB) : AuthDB :=
  if db.users.isEmpty then
    { db with users :=
        [⟨"admin-id", "admin", "admin@postureview.local", hashPw "admin1234",
          "관리자", "admin", true, none⟩] }
  else db

end AuthSvc

/-- `UserBrief` response schema. -/
structure UserBrief where
  id : String
  username : String
  full_name : String
  role : String
deriving DecidableEq, Repr

/-- `TokenResponse` response schema. -/
structure TokenResponse where
  access_token : String
  refresh_token : String
  user : UserBrief
deriving DecidableEq, Repr

namespace AuthApi

/-- `POST /api/auth/login` (api/auth.py lines 24-46).  The audit append is a
collaborator sink and not part of the modelled state.  The pair carries the
session state left behind (unchanged when the request is rejected). -/
def login (verify : String → String → Bool) (hashTok : String → String)
    (jwtEncode : AuthSvc.AccessPayload → String) (db : AuthDB) (now : Nat)
    (freshValue : String) (username password : String) :
    Except Err TokenResponse × AuthDB :=
  match AuthSvc.authenticate_user verify db username password with
  | .error e => (.error e, db)
  | .ok none => (.error (.http 401 "Invalid credentials"), db)
  | .ok (some user) =>
    let user2 := { user with last_login_at := some now }
    let db2 : AuthDB :=
      { db with users := db.users.map (fun u => if u.id == user.id then user2 else u) }
    let access := AuthSvc.create_access_token jwtEncode now user2
    let (refresh, db3) := AuthSvc.create_refresh_token hashTok db2 now user2 freshValue
    (.ok ⟨access, refresh, ⟨user2.id, user2.username, user2.full_name, user2.role⟩⟩, db3)

/-- `POST /api/auth/refresh` (api/auth.py lines 80-96): rejected with the
401 token error when validation returns no user; otherwise a fresh
access/refresh pair is issued. -/
def refresh_token (hashTok : String → String)
    (jwtEncode : AuthSvc.AccessPayload → String) (db : AuthDB) (now : Nat)
    (freshValue : String) (bodyValue : String) :
    Except Err TokenResponse × AuthDB :=
  match AuthSvc.validate_refresh_token hashTok db now bodyValue with
  | (.error e, db2) => (.error e, db2)
  | (.ok none, db2) => (.error (.http 401 "Invalid or expired refresh token"), db2)
  | (.ok (some user), db2) =>
    let access := AuthSvc.create_access_token jwtEncode now user
    let (refresh, db3) := AuthSvc.create_refresh_token hashTok db2 now user freshValue
    (.ok ⟨access, refresh, ⟨user.id, user.username, user.full_name, user.role⟩⟩, db3)

end AuthApi

/-- Collaborator stand-ins for witnesses: an injective token hash and a
deterministic JWT encoding. -/
def toyHash (s : String) : String := "h:" ++ s

/-- JWT stand-in rendering the payload; used only to instantiate witnesses. -/
def toyJwt (p : AuthSvc.AccessPayload) : String :=
  "jwt:" ++ p.sub ++ ":" ++ p.username ++ ":" ++ p.role ++ ":" ++ toString p.exp

/-- bcrypt stand-in for witnesses. -/
def toyVerify (plain hashed : String) : Bool := hashed == "bc:" ++ plain

/-- C8: with a valid active username and matching password, login returns a
token pair; for an unknown username, an inactive account, or a wrong
password, it fails with literally the same 401 "Invalid credentials" outcome
and the same untouched session state, revealing nothing about which reason
applied. -/
theorem c8_login_uniform_outcomes (verify : String → String → Bool)
    (hashTok : String → String) (jwtEncode : AuthSvc.AccessPayload → String)
    (db : AuthDB) (now : Nat) (fv : String) :
    (∀ username password (u : User),
      db.users.filter (fun x => x.username == username) = [u] →
      u.is_active = true → verify password u.password_hash = true →
      ∃ db3, AuthApi.login verify hashTok jwtEncode db now fv username password =
        (.ok ⟨AuthSvc.create_access_token jwtEncode now { u with last_login_at := some now }, fv,
              ⟨u.id, u.username, u.full_name, u.role⟩⟩, db3))
    ∧ (∀ username password,
      db.users.filter (fun x => x.username == username) = [] →
      AuthApi.login verify hashTok jwtEncode db now fv username password =
        (.error (.http 401 "Invalid credentials"), db))
    ∧ (∀ username password (u : User),
      db.users.filter (fun x => x.username == username) = [u] →
      u.is_active = false →
      AuthApi.login verify hashTok jwtEncode db now fv username password =
        (.error (.http 401 "Invalid credentials"), db))
    ∧ (∀ username password (u : User),
      db.users.filter (fun x => x.username == username) = [u] →
      u.is_active = true → verify password u.password_hash = false →
      AuthApi.login verify hashTok jwtEncode db now fv username password =
        (.error (.http 401 "Invalid credentials"), db)) := by
  refine ⟨?_, ?_, ?_, ?_⟩
  · intro username password u hfil hact hver
    refine ⟨⟨db.users.map (fun x => if x.id == u.id then { u with last_login_at := some now } else x),
      db.tokens ++ [⟨u.id, hashTok fv, now + AuthSvc.REFRESH_TOKEN_EXPIRE_DAYS * 86400, false⟩]⟩, ?_⟩
    simp [AuthApi.login, AuthSvc.authenticate_user, hfil, hact, hver, scalarOneOrNone,
      AuthSvc.create_refresh_token]
  · intro username password hfil
    simp [AuthApi.login, AuthSvc.authenticate_user, hfil, scalarOneOrNone]
  · intro username password u hfil hact
    simp [AuthApi.login, AuthSvc.authenticate_user, hfil, hact, scalarOneOrNone]
  · intro username password u hfil hact hver
    simp [AuthApi.login, AuthSvc.authenticate_user, hfil, hact, hver, scalarOneOrNone]

/-- Concrete two-account store used by the C8 witness. -/
def c8db : AuthDB :=
  ⟨[⟨"u1", "alice", "a@x", "bc:pw1", "Alice", "doctor", true, none⟩,
    ⟨"u2", "bob", "b@x", "bc:pw2", "Bob", "nurse", false, none⟩], []⟩

/-- Witness for C8 at a concrete store: the same user fails with a wrong
password and succeeds with the right one; an unknown name and an inactive
account produce the identical error. -/
theorem c8_login_uniform_outcomes_witness :
    (∃ db3, AuthApi.login toyVerify toyHash toyJwt c8db 50 "fv1" "alice" "pw1" =
      (.ok ⟨AuthSvc.create_access_token toyJwt 50
              ⟨"u1", "alice", "a@x", "bc:pw1", "Alice", "doctor", true, some 50⟩, "fv1",
            ⟨"u1", "alice", "Alice", "doctor"⟩⟩, db3))
    ∧ AuthApi.login toyVerify toyHash toyJwt c8db 50 "fv1" "carol" "pw1" =
      (.error (.http 401 "Invalid credentials"), c8db)
    ∧ AuthApi.login toyVerify toyHash toyJwt c8db 50 "fv1" "bob" "pw2" =
      (.error (.http 401 "Invalid credentials"), c8db)
    ∧ AuthApi.login toyVerify toyHash toyJwt c8db 50 "fv1" "alice" "wrong" =
      (.error (.http 401 "Invalid credentials"), c8db) :=
  ⟨(c8_login_uniform_outcomes toyVerify toyHash toyJwt c8db 50 "fv1").1
      "alice" "pw1" ⟨"u1", "alice", "a@x", "bc:pw1", "Alice", "doctor", true, none⟩
      (by decide) (by decide) (by decide),
    (c8_login_uniform_outcomes toyVerify toyHash toyJwt c8db 50 "fv1").2.1
      "carol" "pw1" (by decide),
    (c8_login_uniform_outcomes toyVerify toyHash toyJwt c8db 50 "fv1").2.2.1
      "bob" "pw2" ⟨"u2", "bob", "b@x", "bc:pw2", "Bob", "nurse", false, none⟩
      (by decide) (by decide),
    (c8_login_uniform_outcomes toyVerify toyHash toyJwt c8db 50 "fv1").2.2.2
      "alice" "wrong" ⟨"u1", "alice", "a@x", "bc:pw1", "Alice", "doctor", true, none⟩
      (by decide) (by decide) (by decide)⟩

/-- A token row with a revoked flag, a stale expiry, or a different hash can
never satisfy the rotation lookup. -/
theorem tokenEligible_eq_false {now : Nat} {h : String} {t : RefreshTokenRow}
    (hc : t.token_hash = h → t.revoked = true ∨ t.expires_at ≤ now) :
    AuthSvc.tokenEligible now h t = false := by
  unfold AuthSvc.tokenEligible
  by_cases hh : t.token_hash = h
  · rcases hc hh with hr | he
    · simp [hr]
    · simp [Nat.not_lt_of_le he]
  · simp [hh]

/-- The state left behind by a successful rotation at value `v` followed by
the issuance of a fresh token with raw value `fv` for user `u`: the eligible
row is revoked and the new hash-only row is appended. -/
def rotatedDB (hashTok : String → String) (db : AuthDB) (now : Nat)
    (v : String) (u : User) (fv : String) : AuthDB :=
  ⟨db.users,
   db.tokens.map (fun t =>
      if AuthSvc.tokenEligible now (hashTok v) t then { t with revoked := true } else t)
   ++ [⟨u.id, hashTok fv, now + AuthSvc.REFRESH_TOKEN_EXPIRE_DAYS * 86400, false⟩]⟩

/-- C1 counterexample: a store holding a matching, non-revoked, unexpired
token record whose owning account is inactive — the FIRST redemption of the
value already fails with the 401 token error (no pair issued), contradicting
the claim that the first redemption always succeeds whenever such a record
exists.  (The record is still revoked by the failed attempt.) -/
theorem c1_refresh_counterexample :
    AuthSvc.tokenEligible 50 (toyHash "tok1") ⟨"u9", "h:tok1", 100, false⟩ = true
    ∧ AuthApi.refresh_token toyHash toyJwt
        ⟨[⟨"u9", "ina", "i@x", "bc:p", "Ina", "doctor", false, none⟩],
         [⟨"u9", "h:tok1", 100, false⟩]⟩ 50 "fresh" "tok1" =
      (.error (.http 401 "Invalid or expired refresh token"),
       ⟨[⟨"u9", "ina", "i@x", "bc:p", "Ina", "doctor", false, none⟩],
        [⟨"u9", "h:tok1", 100, true⟩]⟩) := by
  constructor
  · decide
  · rfl

/-- C1 amended: when exactly one non-revoked, unexpired record matches the
presented value AND its owning account exists and is active, the first
redemption succeeds — the record is marked revoked and a fresh access/refresh
pair is issued — and any later redemption of the same value fails with the
401 token error; moreover redeeming any value all of whose matching records
are revoked or expired always fails, leaving the store untouched. -/
theorem c1_refresh_rotation (hashTok : String → String)
    (jwtEncode : AuthSvc.AccessPayload → String) (db : AuthDB)
    (now now2 : Nat) (v fv fv2 : String) (rt : RefreshTokenRow) (u : User)
    (hfil : db.tokens.filter (AuthSvc.tokenEligible now (hashTok v)) = [rt])
    (hu : db.users.filter (fun x => x.id == rt.user_id) = [u])
    (hact : u.is_active = true)
    (hfresh : hashTok fv ≠ hashTok v)
    (hnow : now ≤ now2) :
    AuthApi.refresh_token hashTok jwtEncode db now fv v =
      (.ok ⟨AuthSvc.create_access_token jwtEncode now u, fv,
            ⟨u.id, u.username, u.full_name, u.role⟩⟩, rotatedDB hashTok db now v u fv)
    ∧ { rt with revoked := true } ∈ (rotatedDB hashTok db now v u fv).tokens
    ∧ AuthApi.refresh_token hashTok jwtEncode (rotatedDB hashTok db now v u fv) now2 fv2 v =
      (.error (.http 401 "Invalid or expired refresh token"),
       rotatedDB hashTok db now v u fv)
    ∧ (∀ (db' : AuthDB) (n : Nat) (fw w : String),
        (∀ t ∈ db'.tokens, t.token_hash = hashTok w →
          t.revoked = true ∨ t.expires_at ≤ n) →
        AuthApi.refresh_token hashTok jwtEncode db' n fw w =
          (.error (.http 401 "Invalid or expired refresh token"), db')) := by
  have hrtmem : rt ∈ db.tokens ∧ AuthSvc.tokenEligible now (hashTok v) rt = true := by
    have : rt ∈ db.tokens.filter (AuthSvc.tokenEligible now (hashTok v)) := by
      rw [hfil]; exact List.mem_singleton.mpr rfl
    exact List.mem_filter.mp this
  refine ⟨?_, ?_, ?_, ?_⟩
  · simp only [AuthApi.refresh_token, AuthSvc.validate_refresh_token, hfil,
      scalarOneOrNone, rotatedDB, AuthSvc.create_refresh_token]
    simp [hu, scalarOneOrNone, hact]
  · refine List.mem_append_left _ ?_
    have := List.mem_map_of_mem
      (f := fun t => if AuthSvc.tokenEligible now (hashTok v) t then { t with revoked := true } else t)
      hrtmem.1
    simpa [hrtmem.2] using this
  · have hnil : (rotatedDB hashTok db now v u fv).tokens.filter
        (AuthSvc.tokenEligible now2 (hashTok v)) = [] := by
      rw [List.filter_eq_nil_iff]
      intro t ht
      simp only [rotatedDB, List.mem_append, List.mem_map, List.mem_singleton] at ht
      rcases ht with ⟨t0, _, hteq⟩ | hteq
      · by_cases he : AuthSvc.tokenEligible now (hashTok v) t0
        · rw [if_pos he] at hteq
          subst hteq
          simp [AuthSvc.tokenEligible]
        · rw [if_neg he] at hteq
          subst hteq
          simp only [AuthSvc.tokenEligible, Bool.and_eq_true, beq_iff_eq,
            decide_eq_true_eq, not_and] at he ⊢
          exact fun hh hrv => he hh (lt_of_le_of_lt hnow hrv)
      · subst hteq
        simp only [AuthSvc.tokenEligible, Bool.and_eq_true, beq_iff_eq]
        intro hcon
        exact hfresh hcon.1.1
    simp [AuthApi.refresh_token, AuthSvc.validate_refresh_token, hnil, scalarOneOrNone]
  · intro db' n fw w hstale
    have hnil : db'.tokens.filter (AuthSvc.tokenEligible n (hashTok w)) = [] := by
      rw [List.filter_eq_nil_iff]
      intro t ht
      simp [tokenEligible_eq_false (hstale t ht)]
    simp [AuthApi.refresh_token, AuthSvc.validate_refresh_token, hnil, scalarOneOrNone]

/-- Concrete active account and store for the C1 witness. -/
def wAlice : User := ⟨"u1", "alice", "a@x", "bc:p", "Alice", "doctor", true, none⟩

/-- Store with one valid refresh-token record owned by `wAlice`. -/
def c1wdb : AuthDB := ⟨[wAlice], [⟨"u1", "h:tok1", 100, false⟩]⟩

/-- Witness for C1 (amended): concrete first redemption succeeds and rotates;
the replayed value is then rejected. -/
theorem c1_refresh_rotation_witness :
    AuthApi.refresh_token toyHash toyJwt c1wdb 50 "tok2" "tok1" =
      (.ok ⟨AuthSvc.create_access_token toyJwt 50 wAlice, "tok2",
            ⟨"u1", "alice", "Alice", "doctor"⟩⟩,
       rotatedDB toyHash c1wdb 50 "tok1" wAlice "tok2")
    ∧ AuthApi.refresh_token toyHash toyJwt
        (rotatedDB toyHash c1wdb 50 "tok1" wAlice "tok2") 60 "tok3" "tok1" =
      (.error (.http 401 "Invalid or expired refresh token"),
       rotatedDB toyHash c1wdb 50 "tok1" wAlice "tok2") :=
  ⟨(c1_refresh_rotation toyHash toyJwt c1wdb 50 60 "tok1" "tok2" "tok3"
      ⟨"u1", "h:tok1", 100, false⟩ wAlice (by decide) (by decide) (by decide)
      (by decide) (by decide)).1,
   (c1_refresh_rotation toyHash toyJwt c1wdb 50 60 "tok1" "tok2" "tok3"
      ⟨"u1", "h:tok1", 100, false⟩ wAlice (by decide) (by decide) (by decide)
      (by decide) (by decide)).2.2.1⟩

/-- The state committed by `validate_refresh_token` when it matches a record:
the eligible row is revoked even when no user is ultimately returned. -/
def consumedDB (hashTok : String → String) (db : AuthDB) (now : Nat)
    (v : String) : AuthDB :=
  ⟨db.users,
   db.tokens.map (fun t =>
      if AuthSvc.tokenEligible now (hashTok v) t then { t with revoked := true } else t)⟩

/-- C10: when the presented value matches a non-revoked, unexpired record but
the owning account is missing or inactive, `validate_refresh_token` returns
no user — so the refresh endpoint rejects with 401 and issues nothing — yet
the matched record has already been revoked and committed: the failed
redemption permanently consumes the token. -/
theorem c10_failed_redemption_consumes (hashTok : String → String)
    (db : AuthDB) (now : Nat) (v : String) (rt : RefreshTokenRow)
    (hfil : db.tokens.filter (AuthSvc.tokenEligible now (hashTok v)) = [rt])
    (hu : db.users.filter (fun x => x.id == rt.user_id) = [] ∨
      ∃ u, db.users.filter (fun x => x.id == rt.user_id) = [u] ∧ u.is_active = false) :
    AuthSvc.validate_refresh_token hashTok db now v =
      (.ok none, consumedDB hashTok db now v)
    ∧ { rt with revoked := true } ∈ (consumedDB hashTok db now v).tokens
    ∧ (∀ (jwtEncode : AuthSvc.AccessPayload → String) (fv : String),
        AuthApi.refresh_token hashTok jwtEncode db now fv v =
          (.error (.http 401 "Invalid or expired refresh token"),
           consumedDB hashTok db now v)) := by
  have hrtmem : rt ∈ db.tokens ∧ AuthSvc.tokenEligible now (hashTok v) rt = true := by
    have : rt ∈ db.tokens.filter (AuthSvc.tokenEligible now (hashTok v)) := by
      rw [hfil]; exact List.mem_singleton.mpr rfl
    exact List.mem_filter.mp this
  have hval : AuthSvc.validate_refresh_token hashTok db now v =
      (.ok none, consumedDB hashTok db now v) := by
    rcases hu with hnone | ⟨u, hone, hinact⟩
    · simp [AuthSvc.validate_refresh_token, hfil, scalarOneOrNone, consumedDB, hnone]
    · simp [AuthSvc.validate_refresh_token, hfil, scalarOneOrNone, consumedDB, hone, hinact]
  refine ⟨hval, ?_, ?_⟩
  · have := List.mem_map_of_mem
      (f := fun t => if AuthSvc.tokenEligible now (hashTok v) t then { t with revoked := true } else t)
      hrtmem.1
    simpa [consumedDB, hrtmem.2] using this
  · intro jwtEncode fv
    simp [AuthApi.refresh_token, hval]

/-- Witness for C10: valid token record whose owning account does not exist;
validation fails but the record is revoked in the committed state. -/
theorem c10_failed_redemption_consumes_witness :
    AuthSvc.validate_refresh_token toyHash ⟨[], [⟨"u9", "h:tok1", 100, false⟩]⟩ 50 "tok1" =
      (.ok none, consumedDB toyHash ⟨[], [⟨"u9", "h:tok1", 100, false⟩]⟩ 50 "tok1")
    ∧ ({ user_id := "u9", token_hash := "h:tok1", expires_at := 100, revoked := true } :
        RefreshTokenRow) ∈
      (consumedDB toyHash ⟨[], [⟨"u9", "h:tok1", 100, false⟩]⟩ 50 "tok1").tokens :=
  ⟨(c10_failed_redemption_consumes toyHash ⟨[], [⟨"u9", "h:tok1", 100, false⟩]⟩ 50 "tok1"
      ⟨"u9", "h:tok1", 100, false⟩ (by decide) (Or.inl (by decide))).1,
   (c10_failed_redemption_consumes toyHash ⟨[], [⟨"u9", "h:tok1", 100, false⟩]⟩ 50 "tok1"
      ⟨"u9", "h:tok1", 100, false⟩ (by decide) (Or.inl (by decide))).2.1⟩

/-! ## Key Material Provider (`encryption_service.get_fernet`, `main.lifespan`)

`get_fernet` keeps the constructed cipher in a module-global, loading and
validating the configured key on first use only.  `main.lifespan` — the
process-startup hook — creates tables and seeds the admin account; it never
touches the key material. -/

/-- Value of one base64 character in the standard alphabet. -/
def b64Val (c : Char) : Option Nat :=
  if 65 ≤ c.toNat ∧ c.toNat ≤ 90 then some (c.toNat - 65)
  else if 97 ≤ c.toNat ∧ c.toNat ≤ 122 then some (c.toNat - 97 + 26)
  else if 48 ≤ c.toNat ∧ c.toNat ≤ 57 then some (c.toNat - 48 + 52)
  else if c = '+' then some 62
  else if c = '/' then some 63
  else none

/-- Decode base64 quartets (with optional terminal padding); `none` models the
`binascii` padding error raised on a malformed stream. -/
def b64Groups : List Char → Option (List Nat)
  | [] => some []
  | a :: b :: c :: d :: rest =>
    match b64Val a, b64Val b with
    | some va, some vb =>
      if c = '=' then
        if d = '=' ∧ rest = [] then some [va * 4 + vb / 16] else none
      else
        match b64Val c with
        | some vc =>
          if d = '=' then
            if rest = [] then some [va * 4 + vb / 16, (vb % 16) * 16 + vc / 4] else none
          else
            match b64Val d with
            | some vd =>
              (b64Groups rest).map
                (fun t => (va * 4 + vb / 16) :: ((vb % 16) * 16 + vc / 4) :: ((vc % 4) * 64 + vd) :: t)
            | none => none
        | none => none
    | _, _ => none
  | _ => none

/-- `base64.urlsafe_b64decode` on the key string: translate the urlsafe
alphabet, discard characters outside the alphabet (lenient mode), then decode
whole quartets. -/
def urlsafeB64decode (s : String) : Option (List Nat) :=
  let cs := (s.toList.map (fun c => if c = '-' then '+' else if c = '_' then '/' else c)).filter
    (fun c => (b64Val c).isSome || c = '=')
  b64Groups cs

/-- The module-global `_fernet` of `encryption_service.py`. -/
structure EncState where
  fernet : Option FernetI

/-- Does the configured key pass `get_fernet`'s validation (urlsafe-base64
decodes to exactly 32 bytes)? -/
def fernetKeyValid (key : String) : Bool :=
  match urlsafeB64decode key with
  | some d => d.length == 32
  | none => false

/-- `get_fernet` (encryption_service.py lines 10-27): return the cached
cipher if initialized; otherwise base64-decode the configured key, require
32 bytes — any failure is re-raised as `ValueError` — then construct and
cache the cipher.  `mkFernet` models the `Fernet(key)` constructor. -/
def get_fernet (mkFernet : String → FernetI) (key : String) (st : EncState) :
    Except Err (FernetI × EncState) :=
  match st.fernet with
  | some f => .ok (f, st)
  | none =>
    match urlsafeB64decode key with
    | none => .error .valueError
    | some decoded =>
      if decoded.length ≠ 32 then .error .valueError
      else .ok (mkFernet key, ⟨some (mkFernet key)⟩)

/-- Stateful `encrypt` as seen by callers before initialization: falsy values
return before any key use; otherwise the first call triggers `get_fernet`. -/
def encryptLazy (mkFernet : String → FernetI) (key : String) (st : EncState) :
    Option String → Except Err (Option String × EncState)
  | none => .ok (none, st)
  | some s =>
    if s = "" then .ok (some s, st)
    else
      match get_fernet mkFernet key st with
      | .error e => .error e
      | .ok (f, st2) => .ok (some (f.encStr s), st2)

/-- Stateful `decrypt` before initialization (the sentinel handler only
catches `InvalidToken`, not the key `ValueError`). -/
def decryptLazy (mkFernet : String → FernetI) (key : String) (st : EncState) :
    Option String → Except Err (Option String × EncState)
  | none => .ok (none, st)
  | some s =>
    if s = "" then .ok (some s, st)
    else
      match get_fernet mkFernet key st with
      | .error e => .error e
      | .ok (f, st2) =>
        match f.decStr s with
        | some p => .ok (some p, st2)
        | none => .ok (some "[decryption failed]", st2)

/-- `main.lifespan` startup body (main.py lines 17-29): create tables (a
collaborator DDL call) and seed the admin account.  It performs no key
loading or validation: the encryption state passes through untouched, and no
step of it can fail on a bad `ENCRYPTION_KEY`. -/
def lifespan_startup (hashPw : String → String) (db : AuthDB) (encSt : EncState) :
    AuthDB × EncState :=
  (AuthSvc.ensure_admin_exists hashPw db, encSt)

/-- `Fernet(key)` constructor stand-in for witnesses. -/
def toyMkFernet : String → FernetI := fun _ => toyFernet

/-- C7 counterexample: with an invalid encryption key ("bad key!" does not
base64-decode to 32 bytes), process startup completes without any failure —
`lifespan` never loads or validates the key — while the first later
encrypt/decrypt use raises `ValueError`.  The failure is deferred to first
use, not fatal at startup, contradicting the claim. -/
theorem c7_startup_counterexample :
    fernetKeyValid "bad key!" = false
    ∧ lifespan_startup toyHash ⟨[wAlice], []⟩ ⟨none⟩ = (⟨[wAlice], []⟩, ⟨none⟩)
    ∧ encryptLazy toyMkFernet "bad key!" ⟨none⟩ (some "x") = .error .valueError := by
  have h : urlsafeB64decode "bad key!" = none := by decide
  refine ⟨by simp [fernetKeyValid, h], ?_, ?_⟩
  · simp [lifespan_startup, AuthSvc.ensure_admin_exists]
  · simp [encryptLazy, get_fernet, h]

/-- C7 amended: the key is loaded and validated (urlsafe-base64, exactly 32
bytes) at the FIRST encrypt/decrypt use, not at process startup: once loaded
the cached cipher is reused with no reload or revalidation, an invalid key
makes every first-use path raise `ValueError` before anything is encrypted
or decrypted, and a valid key makes the first use construct and cache the
cipher exactly once. -/
theorem c7_key_loaded_once_validated_before_use (mkFernet : String → FernetI)
    (key : String) :
    (∀ (f : FernetI) (st : EncState), st.fernet = some f →
      get_fernet mkFernet key st = .ok (f, st))
    ∧ (∀ (st : EncState) (s : String), st.fernet = none → s ≠ "" →
      fernetKeyValid key = false →
      encryptLazy mkFernet key st (some s) = .error .valueError
      ∧ decryptLazy mkFernet key st (some s) = .error .valueError)
    ∧ (∀ (st : EncState) (s : String), st.fernet = none → s ≠ "" →
      fernetKeyValid key = true →
      encryptLazy mkFernet key st (some s) =
        .ok (some ((mkFernet key).encStr s), ⟨some (mkFernet key)⟩)) := by
  refine ⟨?_, ?_, ?_⟩
  · intro f st hst
    simp [get_fernet, hst]
  · intro st s hst hs hbad
    cases hdec : urlsafeB64decode key with
    | none =>
      constructor <;> simp [encryptLazy, decryptLazy, get_fernet, hst, hs, hdec]
    | some d =>
      have hlen : d.length ≠ 32 := by
        simp [fernetKeyValid, hdec] at hbad
        simpa using hbad
      constructor <;> simp [encryptLazy, decryptLazy, get_fernet, hst, hs, hdec, hlen]
  · intro st s hst hs hgood
    cases hdec : urlsafeB64decode key with
    | none => simp [fernetKeyValid, hdec] at hgood
    | some d =>
      have hlen : d.length = 32 := by
        simp [fernetKeyValid, hdec] at hgood
        simpa using hgood
      simp [encryptLazy, get_fernet, hst, hs, hdec, hlen]

/-- Witness for C7 (amended): cached reuse, first-use failure on a malformed
key, and first-use initialization on a well-formed 32-byte key. -/
theorem c7_key_loaded_once_validated_before_use_witness :
    get_fernet toyMkFernet "AAAAAAAAAAAAAAAAAAAAAAAAAAAAAAAAAAAAAAAAAAA=" ⟨some toyFernet⟩ =
      .ok (toyFernet, ⟨some toyFernet⟩)
    ∧ encryptLazy toyMkFernet "bad key!" ⟨none⟩ (some "x") = .error .valueError
    ∧ encryptLazy toyMkFernet "AAAAAAAAAAAAAAAAAAAAAAAAAAAAAAAAAAAAAAAAAAA=" ⟨none⟩ (some "x") =
      .ok (some (toyFernet.encStr "x"), ⟨some toyFernet⟩) :=
  ⟨(c7_key_loaded_once_validated_before_use toyMkFernet
      "AAAAAAAAAAAAAAAAAAAAAAAAAAAAAAAAAAAAAAAAAAA=").1 toyFernet ⟨some toyFernet⟩ rfl,
   ((c7_key_loaded_once_validated_before_use toyMkFernet "bad key!").2.1
      ⟨none⟩ "x" rfl (by decide) (by decide)).1,
   (c7_key_loaded_once_validated_before_use toyMkFernet
      "AAAAAAAAAAAAAAAAAAAAAAAAAAAAAAAAAAAAAAAAAAA=").2.2 ⟨none⟩ "x" rfl (by decide) (by decide)⟩

/-! ## Re-encryption migration (`migrate_encrypt.py`)

The script walks three tables and encrypts every value not yet recognized as
ciphertext by the fixed Fernet marker, skipping the rest (idempotence).  The
non-dry-run data path is embedded; the printed report and the DDL step (which
does not touch data) are omitted. -/

namespace Mig

/-- `FERNET_PREFIX` constant of migrate_encrypt.py (line 34). -/
def FERNET_MARKER : String := "gAAAAA"

/-- `FERNET_BYTES_PREFIX` (line 35), as byte values. -/
def FERNET_MARKER_BYTES : List Nat := [103, 65, 65, 65, 65, 65]

/-- `is_already_encrypted` (lines 38-42): falsy values need no processing and
count as already encrypted; otherwise test the marker. -/
def is_already_encrypted : Option String → Bool
  | none => true
  | some v => if v = "" then true else pyStartsWith v FERNET_MARKER

/-- `is_already_encrypted_bytes` (lines 45-48): `data[:6] == b"gAAAAA"`. -/
def is_already_encrypted_bytes : Option (List Nat) → Bool
  | none => true
  | some d => if d = [] then true else d.take 6 == FERNET_MARKER_BYTES

/-- `encrypt_str` (lines 51-54). -/
def encrypt_str (F : FernetI) : Option String → Option String
  | none => none
  | some v => if v = "" then some v else some (F.encStr v)

/-- One field of the patients UPDATE: values recognized as ciphertext are
skipped, the rest are encrypted (migrate, lines 116-119). -/
def migField (F : FernetI) (v : Option String) : Option String :=
  if is_already_encrypted v then v else encrypt_str F v

/-- One row of the patients table as read by the migration (line 104). -/
structure MPRow where
  id : String
  phone : Option String
  email : Option String
  diagnosis : Option String
  medical_history : Option String
  occupation : Option String := none
  notes : Option String
deriving DecidableEq, Repr

/-- Are all five migrated fields of a patients row already ciphertext
(`updates` dict empty, line 121)? -/
def mpAllEncrypted (r : MPRow) : Bool :=
  is_already_encrypted r.phone && is_already_encrypted r.email
  && is_already_encrypted r.diagnosis && is_already_encrypted r.medical_history
  && is_already_encrypted r.notes

/-- The applied UPDATE of one patients row (every field not yet in
ciphertext form replaced by its encryption). -/
def migRow (F : FernetI) (r : MPRow) : MPRow :=
  { r with phone := migField F r.phone, email := migField F r.email,
           diagnosis := migField F r.diagnosis,
           medical_history := migField F r.medical_history,
           notes := migField F r.notes }

/-- Step 2 of `migrate` (lines 101-140): per patients row, encrypt the fields
not yet in ciphertext form; rows with an empty update set are skipped.
Returns the updated table with the (encrypted, skipped) counters. -/
def migratePatients (F : FernetI) : List MPRow → List MPRow × Nat × Nat
  | [] => ([], 0, 0)
  | r :: rs =>
    if mpAllEncrypted r then
      (r :: (migratePatients F rs).1, (migratePatients F rs).2.1,
       (migratePatients F rs).2.2 + 1)
    else
      (migRow F r :: (migratePatients F rs).1, (migratePatients F rs).2.1 + 1,
       (migratePatients F rs).2.2)

/-- Step 3 of `migrate` (lines 142-174): rows whose `overall_notes` is NULL
or empty are outside the SQL selection and untouched; marker-carrying values
are skipped; the rest are encrypted. -/
def migrateAssessments (F : FernetI) :
    List (String × Option String) → List (String × Option String) × Nat × Nat
  | [] => ([], 0, 0)
  | (i, v) :: rs =>
    match v with
    | none => ((i, none) :: (migrateAssessments F rs).1, (migrateAssessments F rs).2)
    | some s =>
      if s = "" then
        ((i, some s) :: (migrateAssessments F rs).1, (migrateAssessments F rs).2)
      else if pyStartsWith s FERNET_MARKER then
        ((i, some s) :: (migrateAssessments F rs).1, (migrateAssessments F rs).2.1,
         (migrateAssessments F rs).2.2 + 1)
      else
        ((i, some (F.encStr s)) :: (migrateAssessments F rs).1,
         (migrateAssessments F rs).2.1 + 1, (migrateAssessments F rs).2.2)

/-- Step 4 of `migrate` (lines 176-207): photo payloads recognized as
ciphertext are skipped, the rest encrypted. -/
def migratePhotos (F : FernetI) :
    List (String × List Nat) → List (String × List Nat) × Nat × Nat
  | [] => ([], 0, 0)
  | (i, d) :: rs =>
    if is_already_encrypted_bytes (some d) then
      ((i, d) :: (migratePhotos F rs).1, (migratePhotos F rs).2.1,
       (migratePhotos F rs).2.2 + 1)
    else
      ((i, F.encBytes d) :: (migratePhotos F rs).1, (migratePhotos F rs).2.1 + 1,
       (migratePhotos F rs).2.2)

end Mig

/-- Freshly produced string ciphertext is recognized as already encrypted,
given the Fernet marker contract. -/
theorem migField_already_encrypted (F : FernetI)
    (hS : ∀ s : String, pyStartsWith (F.encStr s) Mig.FERNET_MARKER = true)
    (v : Option String) : Mig.is_already_encrypted (Mig.migField F v) = true := by
  by_cases h : Mig.is_already_encrypted v
  · simp [Mig.migField, h]
  · match v with
    | none => simp [Mig.is_already_encrypted] at h
    | some s =>
      by_cases hs : s = ""
      · simp [Mig.is_already_encrypted, hs] at h
      · have hps : pyStartsWith s Mig.FERNET_MARKER = false := by
          simp [Mig.is_already_encrypted, hs] at h
          exact h
        simp [Mig.migField, Mig.encrypt_str, hs, Mig.is_already_encrypted, hps, hS s]

/-- A migrated patients row has every migrated field in ciphertext form. -/
theorem mpAllEncrypted_migRow (F : FernetI)
    (hS : ∀ s : String, pyStartsWith (F.encStr s) Mig.FERNET_MARKER = true)
    (r : Mig.MPRow) : Mig.mpAllEncrypted (Mig.migRow F r) = true := by
  simp [Mig.mpAllEncrypted, Mig.migRow, migField_already_encrypted F hS]

/-- C9: a value already carrying the fixed Fernet marker — text or bytes —
is left untouched by the corresponding encryption pass, and running each
migration pass a second time over its own output changes no data and
encrypts nothing (idempotence).  The hypotheses are the Fernet contract that
ciphertext begins with the marker. -/
theorem c9_migration_idempotent (F : FernetI)
    (hS : ∀ s : String, pyStartsWith (F.encStr s) Mig.FERNET_MARKER = true)
    (hB : ∀ b : List Nat, (F.encBytes b).take 6 = Mig.FERNET_MARKER_BYTES) :
    (∀ v : Option String, Mig.is_already_encrypted v = true → Mig.migField F v = v)
    ∧ (∀ (r : Mig.MPRow), Mig.mpAllEncrypted r = true →
        ∀ rs, Mig.migratePatients F (r :: rs) =
          (r :: (Mig.migratePatients F rs).1, (Mig.migratePatients F rs).2.1,
           (Mig.migratePatients F rs).2.2 + 1))
    ∧ (∀ (i : String) (d : List Nat), Mig.is_already_encrypted_bytes (some d) = true →
        ∀ rs, Mig.migratePhotos F ((i, d) :: rs) =
          ((i, d) :: (Mig.migratePhotos F rs).1, (Mig.migratePhotos F rs).2.1,
           (Mig.migratePhotos F rs).2.2 + 1))
    ∧ (∀ T : List Mig.MPRow,
        (Mig.migratePatients F (Mig.migratePatients F T).1).1 = (Mig.migratePatients F T).1
        ∧ (Mig.migratePatients F (Mig.migratePatients F T).1).2.1 = 0)
    ∧ (∀ A : List (String × Option String),
        (Mig.migrateAssessments F (Mig.migrateAssessments F A).1).1 =
          (Mig.migrateAssessments F A).1
        ∧ (Mig.migrateAssessments F (Mig.migrateAssessments F A).1).2.1 = 0)
    ∧ (∀ P : List (String × List Nat),
        (Mig.migratePhotos F (Mig.migratePhotos F P).1).1 = (Mig.migratePhotos F P).1
        ∧ (Mig.migratePhotos F (Mig.migratePhotos F P).1).2.1 = 0) := by
  refine ⟨?_, ?_, ?_, ?_, ?_, ?_⟩
  · intro v hv
    simp [Mig.migField, hv]
  · intro r hr rs
    simp [Mig.migratePatients, hr]
  · intro i d hd rs
    simp [Mig.migratePhotos, hd]
  · intro T
    induction T with
    | nil => simp [Mig.migratePatients]
    | cons r rs ih =>
      by_cases hr : Mig.mpAllEncrypted r
      · simp [Mig.migratePatients, hr, ih.1, ih.2]
      · simp [Mig.migratePatients, hr, mpAllEncrypted_migRow F hS, ih.1, ih.2]
  · intro A
    induction A with
    | nil => simp [Mig.migrateAssessments]
    | cons p rs ih =>
      obtain ⟨i, v⟩ := p
      match v with
      | none => simp [Mig.migrateAssessments, ih.1, ih.2]
      | some s =>
        by_cases hs : s = ""
        · simp [Mig.migrateAssessments, hs, ih.1, ih.2]
        · by_cases hp : pyStartsWith s Mig.FERNET_MARKER
          · simp [Mig.migrateAssessments, hs, hp, ih.1, ih.2]
          · have hne : F.encStr s ≠ "" := by
              intro h
              have := hS s
              rw [h] at this
              simp [pyStartsWith, Mig.FERNET_MARKER] at this
            simp [Mig.migrateAssessments, hs, hp, hne, hS s, ih.1, ih.2]
  · intro P
    induction P with
    | nil => simp [Mig.migratePhotos]
    | cons p rs ih =>
      obtain ⟨i, d⟩ := p
      by_cases hd : Mig.is_already_encrypted_bytes (some d)
      · simp [Mig.migratePhotos, hd, ih.1, ih.2]
      · have h2 : Mig.is_already_encrypted_bytes (some (F.encBytes d)) = true := by
          simp [Mig.is_already_encrypted_bytes, hB d]
        simp [Mig.migratePhotos, hd, h2, ih.1, ih.2]

/-- The toy cipher satisfies the string marker contract. -/
theorem toyFernet_marker_str (s : String) :
    pyStartsWith (toyFernet.encStr s) Mig.FERNET_MARKER = true := by
  show ("gAAAAA".toList).isPrefixOf ("gAAAAA" ++ s).toList = true
  show ("gAAAAA".toList).isPrefixOf ("gAAAAA".toList ++ s.toList) = true
  simp [List.isPrefixOf_iff_prefix]

/-- The toy cipher satisfies the bytes marker contract. -/
theorem toyFernet_marker_bytes (b : List Nat) :
    (toyFernet.encBytes b).take 6 = Mig.FERNET_MARKER_BYTES := rfl

/-- Concrete half-migrated patients row for the C9 witness. -/
def c9row : Mig.MPRow :=
  ⟨"p1", some "gAAAAAciphertext", some "plain@x", none, some "", none, some "note"⟩

/-- Witness for C9: a marker-carrying value is untouched, and each pass run
twice over a concrete mixed table equals its own first output with zero
values encrypted on the second run. -/
theorem c9_migration_idempotent_witness :
    Mig.migField toyFernet (some "gAAAAAciphertext") = some "gAAAAAciphertext"
    ∧ ((Mig.migratePatients toyFernet (Mig.migratePatients toyFernet [c9row]).1).1 =
        (Mig.migratePatients toyFernet [c9row]).1
      ∧ (Mig.migratePatients toyFernet (Mig.migratePatients toyFernet [c9row]).1).2.1 = 0)
    ∧ ((Mig.migrateAssessments toyFernet (Mig.migrateAssessments toyFernet
          [("a1", some "free text"), ("a2", some "gAAAAAx"), ("a3", none)]).1).1 =
        (Mig.migrateAssessments toyFernet
          [("a1", some "free text"), ("a2", some "gAAAAAx"), ("a3", none)]).1
      ∧ (Mig.migrateAssessments toyFernet (Mig.migrateAssessments toyFernet
          [("a1", some "free text"), ("a2", some "gAAAAAx"), ("a3", none)]).1).2.1 = 0)
    ∧ ((Mig.migratePhotos toyFernet (Mig.migratePhotos toyFernet
          [("ph1", [9, 9]), ("ph2", [103, 65, 65, 65, 65, 65, 1])]).1).1 =
        (Mig.migratePhotos toyFernet
          [("ph1", [9, 9]), ("ph2", [103, 65, 65, 65, 65, 65, 1])]).1
      ∧ (Mig.migratePhotos toyFernet (Mig.migratePhotos toyFernet
          [("ph1", [9, 9]), ("ph2", [103, 65, 65, 65, 65, 65, 1])]).1).2.1 = 0) :=
  ⟨(c9_migration_idempotent toyFernet toyFernet_marker_str toyFernet_marker_bytes).1
      (some "gAAAAAciphertext") (by decide),
   (c9_migration_idempotent toyFernet toyFernet_marker_str toyFernet_marker_bytes).2.2.2.1
      [c9row],
   (c9_migration_idempotent toyFernet toyFernet_marker_str toyFernet_marker_bytes).2.2.2.2.1
      [("a1", some "free text"), ("a2", some "gAAAAAx"), ("a3", none)],
   (c9_migration_idempotent toyFernet toyFernet_marker_str toyFernet_marker_bytes).2.2.2.2.2
      [("ph1", [9, 9]), ("ph2", [103, 65, 65, 65, 65, 65, 1])]⟩

/-! ## Backup Codec (`app/api/backup.py`)

The JSON document is embedded as an explicit value type; `json.dumps` /
`json.loads` on bytes are collaborator parameters.  The session is projected
onto the three clinical tables; pending `db.add` rows live in a separate
`Pending` record that only the single final `commit` merges into the store,
and a raised error returns the store unchanged (the enclosing transaction
rolls back uncommitted work). -/

/-- A parsed JSON value. -/
inductive JVal where
  | null
  | bool (b : Bool)
  | str (s : String)
  | arr (xs : List JVal)
  | obj (kvs : List (String × JVal))

/-- First value bound to a key in a JSON object (`dict` lookup). -/
def kvsGet (kvs : List (String × JVal)) (k : String) : Option JVal :=
  match kvs with
  | [] => none
  | (k2, v) :: rest => if k2 == k then some v else kvsGet rest k

/-- Key presence in a JSON object. -/
def kvsHas (kvs : List (String × JVal)) (k : String) : Bool :=
  kvs.any (fun kv => kv.1 == k)

/-- Python `key in value` as used on the parsed document: key membership for
a dict, element equality for a list, substring for a string, and a raised
`TypeError` for non-iterable values. -/
def jHasKey (doc : JVal) (k : String) : Except Err Bool :=
  match doc with
  | .obj kvs => .ok (kvsHas kvs k)
  | .arr xs => .ok (xs.any (fun v => match v with | .str s => s == k | _ => false))
  | .str s => .ok (decide (List.IsInfix k.toList s.toList))
  | _ => .error .typeError

/-- Python `value[key]`: dict lookup (`KeyError` cannot arise after the
membership check; a missing key and string-indexing a non-dict are both
modelled as the raised error). -/
def jIndex (doc : JVal) (k : String) : Except Err JVal :=
  match doc with
  | .obj kvs =>
    match kvsGet kvs k with
    | some v => .ok v
    | none => .error .typeError
  | _ => .error .typeError

/-- Python truthiness of an optional JSON value (`bool(x)`, default `False`
when the key is absent). -/
def jTruthy : Option JVal → Bool
  | none => false
  | some .null => false
  | some (.bool b) => b
  | some (.str s) => !(s == "")
  | some (.arr xs) => !xs.isEmpty
  | some (.obj kvs) => !kvs.isEmpty

/-- A JSON value assigned into a nullable text column: strings are stored,
JSON `null` and an absent key store NULL.  (A non-string, non-null payload
in such a position would be rejected by the store at flush time; the
modelled inputs — export-shaped documents and the concrete documents of the
theorems below — never place one there.) -/
def jAsOptStr : Option JVal → Option String
  | some (.str s) => some s
  | _ => none

/-- A JSON value assigned into a nullable JSONB column: absent/None is NULL,
anything else is stored as-is. -/
def jOptField : Option JVal → Option JVal
  | none => none
  | some .null => none
  | some v => some v

/-- Is an optional JSONB payload not the literal JSON null? -/
def jNotNullOpt : Option JVal → Bool
  | some .null => false
  | _ => true

/-- Python `repr` of a JSON value, as interpolated into the invalid-UUID
message.  The string case is exact for printable-ASCII strings carrying no
apostrophe and no backslash (Python renders those literally between single
quotes); outside that domain Python switches quote style or escapes, so
every theorem that mentions the message restricts its string to
`asciiPlain`.  Container reprs are abbreviated and relied upon by no
theorem. -/
def pyRepr : JVal → String
  | .str s =>
    String.mk (Char.ofNat 39 :: s.toList ++ [Char.ofNat 39])
  | .null => "None"
  | .bool true => "True"
  | .bool false => "False"
  | .arr _ => "[...]"
  | .obj _ => "\x7b...\x7d"

/-- Remove every occurrence of `pat` from `s`, left to right (Python
`str.replace(pat, "")`); the fuel equals the list length and never runs
out. -/
def removeSubAux (pat : List Char) : Nat → List Char → List Char
  | 0, _ => []
  | _, [] => []
  | fuel + 1, c :: cs =>
    if pat ≠ [] ∧ pat.isPrefixOf (c :: cs) then
      removeSubAux pat fuel ((c :: cs).drop pat.length)
    else c :: removeSubAux pat fuel cs

/-- Is a character a hexadecimal digit? -/
def isHexChar (c : Char) : Bool :=
  (48 ≤ c.toNat && c.toNat ≤ 57) || (97 ≤ c.toNat && c.toNat ≤ 102)
  || (65 ≤ c.toNat && c.toNat ≤ 70)

/-- Canonical 8-4-4-4-12 rendering of 32 lowercase hex digits. -/
def formatUuid (cs : List Char) : String :=
  String.mk (cs.take 8 ++ Char.ofNat 45 :: (cs.drop 8).take 4
    ++ Char.ofNat 45 :: (cs.drop 12).take 4 ++ Char.ofNat 45 :: (cs.drop 16).take 4
    ++ Char.ofNat 45 :: cs.drop 20)

/-- The normalization `uuid.UUID` applies before its digit check: remove the
`urn:` / `uuid:` markers, strip surrounding braces, drop every hyphen. -/
def uuidNormalize (s : String) : List Char :=
  let t0 := s.toList
  let t1 := removeSubAux "urn:".toList t0.length t0
  let t2 := removeSubAux "uuid:".toList t1.length t1
  let isBrace := fun c => c == Char.ofNat 123 || c == Char.ofNat 125
  let t3 := ((t2.dropWhile isBrace).reverse.dropWhile isBrace).reverse
  t3.filter (fun c => !(c == Char.ofNat 45))

/-- `str(uuid.UUID(s))`: normalize, require 32 hex digits, and reformat
canonically in lowercase; `none` where the constructor raises `ValueError`.
The `some` branch is exact: a normalized 32-hex-digit string succeeds in
Python with the same canonical rendering.  The `none` branch may disagree on
exotic `int(hex, 16)` spellings Python tolerates inside the 32 characters
(a sign, digit-group underscores, a `0x` prefix, padding whitespace), so
every theorem about a REJECTED id restricts its input to `pyUuidRejects`, a
sufficient condition for the constructor to fail. -/
def pyUuid (s : String) : Option String :=
  let t4 := uuidNormalize s
  if t4.length = 32 ∧ t4.all isHexChar then some (formatUuid (t4.map Char.toLower))
  else none

/-- Printable-ASCII string with no apostrophe and no backslash: the domain
on which the modelled `repr` and the modelled `int(hex, 16)` alphabet are
exact (the only whitespace such a string can contain is the plain space). -/
def asciiPlain (s : String) : Bool :=
  s.toList.all (fun c => 32 ≤ c.toNat && c.toNat ≤ 126
    && !(c.toNat == 39) && !(c.toNat == 92))

/-- Characters beyond the hex digits that may appear in a 32-character
spelling `int(hex, 16)` accepts: a sign, digit-group underscores, the `0x`
prefix, and (within printable ASCII) space padding.  Hyphens cannot reach
the check — normalization removes them, in the model and in Python alike. -/
def intHexExtra : List Char := ['+', '_', 'x', 'X', ' ']

/-- Sufficient condition, within `asciiPlain` inputs, for `uuid.UUID` to
raise `ValueError`: the normalized form has the wrong length, or contains a
character admitted by no accepted spelling. -/
def pyUuidRejects (s : String) : Bool :=
  let t4 := uuidNormalize s
  !(t4.length == 32) || t4.any (fun c => !(isHexChar c) && !(intHexExtra.contains c))

/-- The model also rejects everything `pyUuidRejects` flags. -/
theorem pyUuid_none_of_rejects (s : String) (h : pyUuidRejects s = true) :
    pyUuid s = none := by
  rw [pyUuid, pyUuidRejects] at *
  by_cases hl : (uuidNormalize s).length = 32
  · simp only [hl, beq_self_eq_true, Bool.not_true, Bool.false_or,
      List.any_eq_true, Bool.and_eq_true, Bool.not_eq_true'] at h
    obtain ⟨c, hc, hchex, _⟩ := h
    rw [if_neg]
    intro hcon
    have := hcon.2
    rw [List.all_eq_true] at this
    rw [this c hc] at hchex
    simp at hchex
  · rw [if_neg]
    intro hcon
    exact hl hcon.1

/-- Insertion of one element into a sorted list (stable). -/
def insertBy {α : Type} (le : α → α → Bool) (x : α) : List α → List α
  | [] => [x]
  | y :: ys => if le x y then x :: y :: ys else y :: insertBy le x ys

/-- Stable insertion sort, standing in for the SQL/ORM `ORDER BY`; every
property stated below depends on its output only up to permutation. -/
def insSortBy {α : Type} (le : α → α → Bool) : List α → List α
  | [] => []
  | x :: xs => insertBy le x (insSortBy le xs)

/-- Inserting permutes to consing. -/
theorem insertBy_perm {α : Type} (le : α → α → Bool) (x : α) (l : List α) :
    (insertBy le x l).Perm (x :: l) := by
  induction l with
  | nil => simp [insertBy]
  | cons y ys ih =>
    by_cases h : le x y
    · simp [insertBy, h]
    · simp only [insertBy, h, if_neg, Bool.false_eq_true, not_false_eq_true]
      exact (ih.cons y).trans (List.Perm.swap x y ys)

/-- Insertion sort permutes its input. -/
theorem insSortBy_perm {α : Type} (le : α → α → Bool) (l : List α) :
    (insSortBy le l).Perm l := by
  induction l with
  | nil => simp [insSortBy]
  | cons x xs ih =>
    exact (insertBy_perm le x _).trans (ih.cons x)

/-- Partitioning a list by a complete, duplicate-free key list and
re-concatenating permutes the original list. -/
theorem flatten_filter_perm {α : Type} (key : α → String) :
    ∀ (keys : List String) (l : List α), keys.Nodup →
    (∀ x ∈ l, key x ∈ keys) →
    ((keys.map (fun k => l.filter (fun x => key x == k))).flatten).Perm l := by
  intro keys
  induction keys with
  | nil =>
    intro l _ hcov
    cases l with
    | nil => simp
    | cons a l => exact absurd (hcov a (List.mem_cons_self a l)) (by simp)
  | cons k ks ih =>
    intro l hnd hcov
    have htail : ∀ k2 ∈ ks, l.filter (fun x => key x == k2) =
        (l.filter (fun x => !(key x == k))).filter (fun x => key x == k2) := by
      intro k2 hk2
      rw [List.filter_filter]
      refine (List.filter_congr ?_).symm
      intro x _
      by_cases hx : key x = k2
      · have hkk : k2 ≠ k := by
          intro h
          rw [h] at hk2
          exact (List.nodup_cons.mp hnd).1 hk2
        simp [hx, hkk]
      · simp [hx]
    have hrest : ((ks.map (fun k2 => l.filter (fun x => key x == k2))).flatten).Perm
        (l.filter (fun x => !(key x == k))) := by
      rw [List.map_congr_left htail]
      refine ih _ (List.nodup_cons.mp hnd).2 ?_
      intro x hx
      have hxl := List.mem_filter.mp hx
      have := hcov x hxl.1
      rcases List.mem_cons.mp this with h | h
      · exfalso
        have := hxl.2
        simp [h] at this
      · exact h
    have heq : (List.map (fun k2 => l.filter (fun x => key x == k2)) (k :: ks)).flatten
        = l.filter (fun x => key x == k) ++
          (ks.map (fun k2 => l.filter (fun x => key x == k2))).flatten := by simp
    rw [heq]
    exact (hrest.append_left _).trans (List.filter_append_perm _ l)

/-- `Patient` ORM row.  `dob` (a `Date`) is carried as its ISO string;
`created_at`/`updated_at` are clock instants with server defaults.  Text
fields are nullable (`name` is NOT NULL in the schema; it is `Option` here so
that arbitrary restored payloads are representable, and the well-formedness
hypotheses of the theorems pin it). -/
structure PatientRow where
  id : String
  name : Option String
  dob : Option String
  gender : Option String
  phone : Option String
  email : Option String
  diagnosis : Option String
  medical_history : Option String
  occupation : Option String
  notes : Option String
  created_at : Nat
  updated_at : Nat
  created_by : Option String
deriving DecidableEq, Repr

/-- `Assessment` ORM row; `date` (a server-defaulted `DateTime`) is carried
as its ISO string, JSONB columns as optional JSON payloads.  `soap_notes`
exists in the schema but is neither exported nor restored. -/
structure AssessmentRow where
  id : String
  patient_id : String
  date : Option String
  summary : Option String
  overall_notes : Option String
  highlight_state : Option JVal
  posture_analysis : Option JVal
  soap_notes : Option JVal
  created_by : String
  created_at : Nat
  updated_at : Nat

/-- `Selection` ORM row. -/
structure SelectionRow where
  id : String
  assessment_id : String
  mesh_id : Option String
  tissue : Option String
  region : Option String
  region_key : Option String
  side : Option String
  severity : String
  concern : Bool
  notes : Option String
deriving DecidableEq, Repr

/-- The clinical projection of the relational store. -/
structure ClinDB where
  patients : List PatientRow
  assessments : List AssessmentRow
  selections : List SelectionRow

/-- Rows pending `db.add` in the current restore run; only the final commit
merges them into the store. -/
structure Pending where
  patients : List PatientRow
  assessments : List AssessmentRow
  selections : List SelectionRow

/-- `restore_backup`'s response body. -/
structure RestoreResp where
  detail : String
  restored_patients : Nat
deriving DecidableEq, Repr

namespace BackupApi

/-- JSON of a nullable text column value. -/
def jOfOptStr : Option String → JVal
  | none => .null
  | some s => .str s

/-- JSON of the `str(x) if x else None` pattern used for `dob` and `date`
(`x` truthy unless NULL; the empty-string guard mirrors Python truthiness on
the string rendering). -/
def jOfTruthyStr : Option String → JVal
  | none => .null
  | some s => if s = "" then .null else .str s

/-- JSON of a nullable JSONB column value. -/
def jOfOptJ : Option JVal → JVal
  | none => .null
  | some v => v

/-- `str(x)` for a nullable id column (`str(None) = "None"`). -/
def strOfPy : Option String → String
  | none => "None"
  | some s => s

/-- Stand-in rendering of a clock instant (`datetime.isoformat`); the
restore path never reads it. -/
def isoNat (n : Nat) : String := toString n

/-- Export order of the patients query: `ORDER BY Patient.created_at`. -/
def sortPatients (ps : List PatientRow) : List PatientRow :=
  insSortBy (fun a b => decide (a.created_at ≤ b.created_at)) ps

/-- Load order of the `Patient.assessments` relationship:
`Assessment.date.desc()`. -/
def sortAssessDesc (as0 : List AssessmentRow) : List AssessmentRow :=
  insSortBy (fun a b => decide ((b.date.getD "") ≤ (a.date.getD ""))) as0

/-- One selection dict of the export (backup.py lines 76-89). -/
def selectionJson (s : SelectionRow) : JVal :=
  .obj [("id", .str s.id), ("mesh_id", jOfOptStr s.mesh_id),
        ("tissue", jOfOptStr s.tissue), ("region", jOfOptStr s.region),
        ("region_key", jOfOptStr s.region_key), ("side", jOfOptStr s.side),
        ("severity", .str s.severity), ("concern", .bool s.concern),
        ("notes", jOfOptStr s.notes)]

/-- One assessment dict of the export (backup.py lines 65-91); the
selections of the assessment are looked up in the store. -/
def assessmentJson (db : ClinDB) (a : AssessmentRow) : JVal :=
  .obj [("id", .str a.id), ("date", jOfTruthyStr a.date),
        ("summary", jOfOptStr a.summary),
        ("overall_notes", jOfOptStr a.overall_notes),
        ("highlight_state", jOfOptJ a.highlight_state),
        ("posture_analysis", jOfOptJ a.posture_analysis),
        ("created_by", .str a.created_by),
        ("created_at", .str (isoNat a.created_at)),
        ("updated_at", .str (isoNat a.updated_at)),
        ("selections", .arr ((db.selections.filter
          (fun s => s.assessment_id == a.id)).map selectionJson))]

/-- One patient dict of the export (backup.py lines 47-93). -/
def patientJson (db : ClinDB) (p : PatientRow) : JVal :=
  .obj [("id", .str p.id), ("name", jOfOptStr p.name),
        ("dob", jOfTruthyStr p.dob), ("gender", jOfOptStr p.gender),
        ("phone", jOfOptStr p.phone), ("email", jOfOptStr p.email),
        ("diagnosis", jOfOptStr p.diagnosis),
        ("medical_history", jOfOptStr p.medical_history),
        ("occupation", jOfOptStr p.occupation), ("notes", jOfOptStr p.notes),
        ("created_at", .str (isoNat p.created_at)),
        ("updated_at", .str (isoNat p.updated_at)),
        ("created_by", .str (strOfPy p.created_by)),
        ("assessments", .arr ((sortAssessDesc (db.assessments.filter
          (fun a => a.patient_id == p.id))).map (assessmentJson db)))]

/-- The whole backup document (backup.py lines 40-45). -/
def backupJson (db : ClinDB) (creator : User) (now : Nat) : JVal :=
  .obj [("version", .str "1.0"), ("created_at", .str (isoNat now)),
        ("created_by", .str creator.username),
        ("patients", .arr ((sortPatients db.patients).map (patientJson db)))]

/-- `POST /api/backup` (backup.py lines 24-110): admin-only; serialize the
document and encrypt the bytes as one blob.  The audit append is a
collaborator sink and the timestamped filename is presentation only. -/
def create_backup (F : FernetI) (dumps : JVal → List Nat) (db : ClinDB)
    (user : User) (now : Nat) : Except Err (List Nat) :=
  if user.role == "admin" then
    .ok (EncSvc.encrypt_bytes F (dumps (backupJson db user now)))
  else .error (.http 403 "Insufficient permissions")

/-- `_validate_uuid` (backup.py lines 136-140): canonicalize or reject with
a 400 naming the field and value; `uuid.UUID(None)` raises `TypeError`,
which the `(ValueError, AttributeError)` handler does not catch. -/
def validate_uuid (v : JVal) (fieldName : String) : Except Err String :=
  match v with
  | .str s =>
    match pyUuid s with
    | some c => .ok c
    | none => .error (.http 400
        ("Invalid UUID in backup data: " ++ fieldName ++ "=" ++ pyRepr v))
  | .null => .error .typeError
  | _ => .error (.http 400
      ("Invalid UUID in backup data: " ++ fieldName ++ "=" ++ pyRepr v))

/-- The `created_by` fallback (backup.py lines 161-165 and 188-191): absent
key gives `""` (a `ValueError`, caught), a string is canonicalized with
fallback on failure, JSON null raises an uncaught `TypeError`, and any other
payload raises `AttributeError`, caught. -/
def createdByFallback (v : Option JVal) (fallback : String) : Except Err String :=
  match v with
  | none => .ok fallback
  | some (.str s) => .ok ((pyUuid s).getD fallback)
  | some .null => .error .typeError
  | some _ => .ok fallback

/-- `VALID_SEVERITIES` (backup.py line 142). -/
def VALID_SEVERITIES : List String := ["normal", "mild", "moderate", "severe"]

/-- Severity of a restored selection (backup.py lines 210-212): default
`"normal"`, any value outside the set falls back to `"normal"`; unhashable
payloads (lists/dicts) raise `TypeError` in the membership test. -/
def restoreSeverity (v : Option JVal) : Except Err String :=
  match v with
  | none => .ok "normal"
  | some (.str s) => .ok (if VALID_SEVERITIES.contains s then s else "normal")
  | some (.arr _) => .error .typeError
  | some (.obj _) => .error .typeError
  | some _ => .ok "normal"

/-- Value bound to a key known to be present. -/
def kvsGetD (kvs : List (String × JVal)) (k : String) : JVal :=
  (kvsGet kvs k).getD .null

/-- One selection entry of the restore (backup.py lines 205-226): skip
non-dict entries and entries missing `id`/`mesh_id`, validate the id,
normalize severity, and build the pending row. -/
def restoreSelection (aid : String) (s_data : JVal) : Except Err (Option SelectionRow) :=
  match s_data with
  | .obj kvs =>
    if !(kvsHas kvs "id" && kvsHas kvs "mesh_id") then .ok none
    else
      match validate_uuid (kvsGetD kvs "id") "selection.id" with
      | .error e => .error e
      | .ok sid =>
        match restoreSeverity (kvsGet kvs "severity") with
        | .error e => .error e
        | .ok sev =>
          .ok (some ⟨sid, aid, jAsOptStr (kvsGet kvs "mesh_id"),
            jAsOptStr (kvsGet kvs "tissue"), jAsOptStr (kvsGet kvs "region"),
            jAsOptStr (kvsGet kvs "region_key"), jAsOptStr (kvsGet kvs "side"),
            sev, jTruthy (kvsGet kvs "concern"), jAsOptStr (kvsGet kvs "notes")⟩)
  | _ => .ok none

/-- The selections loop of one assessment. -/
def restoreSelections (aid : String) : List JVal → Except Err (List SelectionRow)
  | [] => .ok []
  | s :: rest =>
    match restoreSelection aid s with
    | .error e => .error e
    | .ok none => restoreSelections aid rest
    | .ok (some row) =>
      match restoreSelections aid rest with
      | .error e => .error e
      | .ok rows => .ok (row :: rows)

/-- `.get(key, [])` followed by iteration (backup.py lines 182, 205):
an absent key iterates nothing; a list iterates its elements; iterating a
dict or string yields strings, each of which fails the following
`isinstance(dict)` check and is skipped — extensionally the empty list;
other payloads raise `TypeError`. -/
def jIterList : Option JVal → Except Err (List JVal)
  | none => .ok []
  | some (.arr xs) => .ok xs
  | some (.obj _) => .ok []
  | some (.str _) => .ok []
  | some _ => .error .typeError

/-- One assessment entry of the restore (backup.py lines 182-226): skip
non-dicts and entries without `id`; validate the id; resolve `created_by`
with operator fallback; the row takes server-default timestamps and no
`soap_notes`. -/
def restoreAssessment (operator : User) (now : Nat) (pid : String)
    (a_data : JVal) : Except Err (Option (AssessmentRow × List SelectionRow)) :=
  match a_data with
  | .obj kvs =>
    if !(kvsHas kvs "id") then .ok none
    else
      match validate_uuid (kvsGetD kvs "id") "assessment.id" with
      | .error e => .error e
      | .ok aid =>
        match createdByFallback (kvsGet kvs "created_by") operator.id with
        | .error e => .error e
        | .ok acb =>
          match jIterList (kvsGet kvs "selections") with
          | .error e => .error e
          | .ok sels =>
            match restoreSelections aid sels with
            | .error e => .error e
            | .ok srows =>
              .ok (some (⟨aid, pid, jAsOptStr (kvsGet kvs "date"),
                jAsOptStr (kvsGet kvs "summary"),
                jAsOptStr (kvsGet kvs "overall_notes"),
                jOptField (kvsGet kvs "highlight_state"),
                jOptField (kvsGet kvs "posture_analysis"), none, acb, now, now⟩,
                srows))
  | _ => .ok none

/-- The assessments loop of one patient. -/
def restoreAssessments (operator : User) (now : Nat) (pid : String) :
    List JVal → Except Err (List AssessmentRow × List SelectionRow)
  | [] => .ok ([], [])
  | a :: rest =>
    match restoreAssessment operator now pid a with
    | .error e => .error e
    | .ok none => restoreAssessments operator now pid rest
    | .ok (some (arow, srows)) =>
      match restoreAssessments operator now pid rest with
      | .error e => .error e
      | .ok (arows, srows2) => .ok (arow :: arows, srows ++ srows2)

/-- Outcome of one patient entry of the restore loop. -/
inductive StepResult where
  | malformed
  | existing
  | inserted (p : PatientRow) (arows : List AssessmentRow) (srows : List SelectionRow)

/-- One patient entry (backup.py lines 147-228): non-dicts and entries
missing `id`/`name` are malformed (counted skipped); the id is validated;
an id already present in the store — or flushed earlier in this run
(session autoflush) — skips the entry wholesale; otherwise the patient and
all nested rows become pending inserts with server-default timestamps. -/
def restorePatientEntry (db : ClinDB) (pend : Pending) (operator : User)
    (now : Nat) (p_data : JVal) : Except Err StepResult :=
  match p_data with
  | .obj kvs =>
    if !(kvsHas kvs "id" && kvsHas kvs "name") then .ok .malformed
    else
      match validate_uuid (kvsGetD kvs "id") "patient.id" with
      | .error e => .error e
      | .ok pid =>
        if (db.patients ++ pend.patients).any (fun r => r.id == pid) then
          .ok .existing
        else
          match createdByFallback (kvsGet kvs "created_by") operator.id with
          | .error e => .error e
          | .ok cb =>
            match jIterList (kvsGet kvs "assessments") with
            | .error e => .error e
            | .ok as0 =>
              match restoreAssessments operator now pid as0 with
              | .error e => .error e
              | .ok (arows, srows) =>
                .ok (.inserted ⟨pid, jAsOptStr (kvsGet kvs "name"),
                  jAsOptStr (kvsGet kvs "dob"), jAsOptStr (kvsGet kvs "gender"),
                  jAsOptStr (kvsGet kvs "phone"), jAsOptStr (kvsGet kvs "email"),
                  jAsOptStr (kvsGet kvs "diagnosis"),
                  jAsOptStr (kvsGet kvs "medical_history"),
                  jAsOptStr (kvsGet kvs "occupation"),
                  jAsOptStr (kvsGet kvs "notes"), now, now, some cb⟩ arows srows)
  | _ => .ok .malformed

/-- The patients loop (backup.py lines 144-228), threading the pending rows
and the `restored_count` / `skipped_count` counters. -/
def restoreLoop (db : ClinDB) (operator : User) (now : Nat) :
    List JVal → Pending → Nat → Nat → Except Err (Pending × Nat × Nat)
  | [], pend, rc, sc => .ok (pend, rc, sc)
  | p :: rest, pend, rc, sc =>
    match restorePatientEntry db pend operator now p with
    | .error e => .error e
    | .ok .malformed => restoreLoop db operator now rest pend rc (sc + 1)
    | .ok .existing => restoreLoop db operator now rest pend rc sc
    | .ok (.inserted prow arows srows) =>
      restoreLoop db operator now rest
        ⟨pend.patients ++ [prow], pend.assessments ++ arows,
         pend.selections ++ srows⟩ (rc + 1) sc

/-- `POST /api/backup/restore` (backup.py lines 113-241): admin-only;
decrypt and parse the blob (one generic 400 for both failures), check the
envelope shape, run the patients loop, and commit every pending row at the
end.  Any raised error returns the store unchanged: the enclosing session
transaction rolls back uncommitted inserts.  The trailing audit append is a
collaborator sink. -/
def restore_backup (F : FernetI) (parse : List Nat → Option JVal) (db : ClinDB)
    (operator : User) (now : Nat) (blob : List Nat) :
    Except Err RestoreResp × ClinDB :=
  if operator.role == "admin" then
    match F.decBytes blob with
    | none => (.error (.http 400 "Invalid or corrupted backup file"), db)
    | some jb =>
      match parse jb with
      | none => (.error (.http 400 "Invalid or corrupted backup file"), db)
      | some doc =>
        match jHasKey doc "version" with
        | .error e => (.error e, db)
        | .ok false => (.error (.http 400 "Invalid backup format"), db)
        | .ok true =>
          match jHasKey doc "patients" with
          | .error e => (.error e, db)
          | .ok false => (.error (.http 400 "Invalid backup format"), db)
          | .ok true =>
            match jIndex doc "patients" with
            | .error e => (.error e, db)
            | .ok (.arr ps) =>
              match restoreLoop db operator now ps ⟨[], [], []⟩ 0 0 with
              | .error e => (.error e, db)
              | .ok (pend, rc, _) =>
                (.ok ⟨"Backup restored successfully", rc⟩,
                 ⟨db.patients ++ pend.patients,
                  db.assessments ++ pend.assessments,
                  db.selections ++ pend.selections⟩)
            | .ok _ =>
              (.error (.http 400 "Invalid backup format: patients must be a list"), db)
  else (.error (.http 403 "Insufficient permissions"), db)

end BackupApi

/-! Concrete serializer collaborators for witnesses: an injective tagged
byte encoding of `JVal` with a fuel-bounded decoder; the roundtrip is
discharged by evaluation at each concrete document used. -/

/-- Toy byte encoding of a string payload. -/
def dumpStr (s : String) : List Nat :=
  s.toList.length :: s.toList.map Char.toNat

mutual
/-- Toy `json.dumps` to bytes. -/
def dumpsToy : JVal → List Nat
  | .null => [0]
  | .bool b => [1, if b then 1 else 0]
  | .str s => 2 :: dumpStr s
  | .arr xs => 3 :: xs.length :: dumpsList xs
  | .obj kvs => 4 :: kvs.length :: dumpsKvs kvs

/-- Encoding of a list of values. -/
def dumpsList : List JVal → List Nat
  | [] => []
  | v :: vs => dumpsToy v ++ dumpsList vs

/-- Encoding of key/value pairs. -/
def dumpsKvs : List (String × JVal) → List Nat
  | [] => []
  | (k, v) :: kvs => dumpStr k ++ dumpsToy v ++ dumpsKvs kvs
end

/-- Decode a string payload. -/
def parseStr : List Nat → Option (String × List Nat)
  | [] => none
  | len :: rest =>
    if rest.length < len then none
    else some (String.mk ((rest.take len).map Char.ofNat), rest.drop len)

mutual
/-- Fuel-bounded toy `json.loads`. -/
def parseToyAux : Nat → List Nat → Option (JVal × List Nat)
  | 0, _ => none
  | _ + 1, 0 :: rest => some (.null, rest)
  | _ + 1, 1 :: b :: rest => some (.bool (b == 1), rest)
  | _ + 1, 2 :: rest => (parseStr rest).map (fun p => (.str p.1, p.2))
  | fuel + 1, 3 :: n :: rest =>
    (parseListAux fuel n rest).map (fun p => (.arr p.1, p.2))
  | fuel + 1, 4 :: n :: rest =>
    (parseKvsAux fuel n rest).map (fun p => (.obj p.1, p.2))
  | _ + 1, _ => none

/-- Decode `n` consecutive values. -/
def parseListAux : Nat → Nat → List Nat → Option (List JVal × List Nat)
  | _, 0, rest => some ([], rest)
  | 0, _ + 1, _ => none
  | fuel + 1, n + 1, rest =>
    match parseToyAux fuel rest with
    | none => none
    | some (v, rest2) =>
      match parseListAux fuel n rest2 with
      | none => none
      | some (vs, rest3) => some (v :: vs, rest3)

/-- Decode `n` consecutive key/value pairs. -/
def parseKvsAux : Nat → Nat → List Nat → Option (List (String × JVal) × List Nat)
  | _, 0, rest => some ([], rest)
  | 0, _ + 1, _ => none
  | fuel + 1, n + 1, rest =>
    match parseStr rest with
    | none => none
    | some (k, rest2) =>
      match parseToyAux fuel rest2 with
      | none => none
      | some (v, rest3) =>
        match parseKvsAux fuel n rest3 with
        | none => none
        | some (kvs, rest4) => some ((k, v) :: kvs, rest4)
end

/-- Toy `json.loads` on a whole byte sequence. -/
def parseToy (bs : List Nat) : Option JVal :=
  match parseToyAux (bs.length + 1) bs with
  | some (v, []) => some v
  | _ => none

/-- A nullable text value survives export and re-import. -/
theorem jAsOptStr_jOfOptStr (x : Option String) :
    jAsOptStr (some (BackupApi.jOfOptStr x)) = x := by
  cases x <;> simp [jAsOptStr, BackupApi.jOfOptStr]

/-- A truthiness-guarded text value survives export and re-import unless it
is the empty string. -/
theorem jAsOptStr_jOfTruthyStr (x : Option String) (hx : x ≠ some "") :
    jAsOptStr (some (BackupApi.jOfTruthyStr x)) = x := by
  cases x with
  | none => simp [jAsOptStr, BackupApi.jOfTruthyStr]
  | some s =>
    have : s ≠ "" := fun h => hx (by rw [h])
    simp [jAsOptStr, BackupApi.jOfTruthyStr, this]

/-- A JSONB payload that is not the literal JSON null survives export and
re-import. -/
theorem jOptField_jOfOptJ (x : Option JVal) (hx : jNotNullOpt x = true) :
    jOptField (some (BackupApi.jOfOptJ x)) = x := by
  match x with
  | none => simp [jOptField, BackupApi.jOfOptJ]
  | some .null => simp [jNotNullOpt] at hx
  | some (.bool b) => simp [jOptField, BackupApi.jOfOptJ]
  | some (.str s) => simp [jOptField, BackupApi.jOfOptJ]
  | some (.arr xs) => simp [jOptField, BackupApi.jOfOptJ]
  | some (.obj kvs) => simp [jOptField, BackupApi.jOfOptJ]

/-- Well-formedness of a stored selection row: canonical uuid and a valid
severity, as every API write path guarantees. -/
def wfSelectionB (s : SelectionRow) : Bool :=
  (pyUuid s.id == some s.id) && BackupApi.VALID_SEVERITIES.contains s.severity

/-- Well-formedness of a stored assessment row: canonical uuids, a non-empty
date rendering, and JSONB payloads that are not the literal JSON null. -/
def wfAssessmentB (a : AssessmentRow) : Bool :=
  (pyUuid a.id == some a.id) && (pyUuid a.created_by == some a.created_by)
  && !(a.date == some "") && jNotNullOpt a.highlight_state
  && jNotNullOpt a.posture_analysis

/-- Well-formedness of a stored patient row: canonical uuid, non-empty date
rendering, and a non-null canonical `created_by`. -/
def wfPatientB (p : PatientRow) : Bool :=
  (pyUuid p.id == some p.id) && !(p.dob == some "")
  && (match p.created_by with
      | some cb => pyUuid cb == some cb
      | none => false)

/-- The pending row produced for an exported patient: all carried fields
preserved, timestamps regenerated by the server default. -/
def restoredPatient (now : Nat) (p : PatientRow) : PatientRow :=
  { p with created_at := now, updated_at := now }

/-- The pending row produced for an exported assessment: all carried fields
preserved, timestamps regenerated, `soap_notes` absent from the envelope. -/
def restoredAssessment (now : Nat) (a : AssessmentRow) : AssessmentRow :=
  { a with created_at := now, updated_at := now, soap_notes := none }

/-- One exported selection restores to exactly the source row. -/
theorem restoreSelection_json (aid : String) (s : SelectionRow)
    (hwf : wfSelectionB s = true) (haid : s.assessment_id = aid) :
    BackupApi.restoreSelection aid (BackupApi.selectionJson s) = .ok (some s) := by
  obtain ⟨sid, said, mesh, tis, reg, rk, side, sev, con, nts⟩ := s
  simp only [wfSelectionB, Bool.and_eq_true, beq_iff_eq] at hwf
  obtain ⟨hid, hsev⟩ := hwf
  simp only at haid
  subst haid
  have hsev2 : sev ∈ BackupApi.VALID_SEVERITIES := by
    simpa using hsev
  simp [BackupApi.selectionJson, BackupApi.restoreSelection, kvsHas, kvsGet,
    BackupApi.kvsGetD, BackupApi.validate_uuid, hid, BackupApi.restoreSeverity,
    hsev2, jAsOptStr_jOfOptStr, jTruthy]

/-- The exported selections of one assessment restore to exactly the source
rows, in order. -/
theorem restoreSelections_json (aid : String) (ss : List SelectionRow)
    (hwf : ∀ s ∈ ss, wfSelectionB s = true)
    (haid : ∀ s ∈ ss, s.assessment_id = aid) :
    BackupApi.restoreSelections aid (ss.map BackupApi.selectionJson) = .ok ss := by
  induction ss with
  | nil => simp [BackupApi.restoreSelections]
  | cons s rest ih =>
    have h1 := restoreSelection_json aid s (hwf s (by simp)) (haid s (by simp))
    have h2 := ih (fun x hx => hwf x (by simp [hx])) (fun x hx => haid x (by simp [hx]))
    simp [BackupApi.restoreSelections, h1, h2]

/-- One exported assessment restores to the source row with regenerated
timestamps and no `soap_notes`, together with exactly its selections. -/
theorem restoreAssessment_json (S : ClinDB) (operator : User) (now : Nat)
    (a : AssessmentRow) (hwf : wfAssessmentB a = true)
    (hsel : ∀ s ∈ S.selections, wfSelectionB s = true) :
    BackupApi.restoreAssessment operator now a.patient_id
      (BackupApi.assessmentJson S a) =
    .ok (some (restoredAssessment now a,
      S.selections.filter (fun s => s.assessment_id == a.id))) := by
  have hss := restoreSelections_json a.id
    (S.selections.filter (fun s => s.assessment_id == a.id))
    (fun x hx => hsel x (List.mem_filter.mp hx).1)
    (fun x hx => by
      have := (List.mem_filter.mp hx).2
      simpa using this)
  obtain ⟨aid, apid, adate, asum, anotes, ahl, apa, asoap, acb, acat, aupd⟩ := a
  simp only [wfAssessmentB, Bool.and_eq_true, beq_iff_eq, Bool.not_eq_true',
    beq_eq_false_iff_ne, ne_eq] at hwf
  obtain ⟨⟨⟨⟨hid, hcb⟩, hdate⟩, hhl⟩, hpa⟩ := hwf
  simp only at hss
  simp [BackupApi.assessmentJson, BackupApi.restoreAssessment, kvsHas, kvsGet,
    BackupApi.kvsGetD, BackupApi.validate_uuid, hid, BackupApi.createdByFallback,
    hcb, jAsOptStr_jOfOptStr, jAsOptStr_jOfTruthyStr _ hdate,
    jOptField_jOfOptJ _ hhl, jOptField_jOfOptJ _ hpa, BackupApi.jIterList, hss,
    restoredAssessment]

/-- Export order of one patient's assessments in the envelope. -/
def exportedAssessOf (S : ClinDB) (p : PatientRow) : List AssessmentRow :=
  BackupApi.sortAssessDesc (S.assessments.filter (fun a => a.patient_id == p.id))

/-- The exported assessments of one patient restore to the source rows (with
regenerated timestamps, no `soap_notes`) plus the concatenation of their
selections. -/
theorem restoreAssessments_json (S : ClinDB) (operator : User) (now : Nat)
    (pid : String) (as0 : List AssessmentRow)
    (hwf : ∀ a ∈ as0, wfAssessmentB a = true)
    (hpid : ∀ a ∈ as0, a.patient_id = pid)
    (hsel : ∀ s ∈ S.selections, wfSelectionB s = true) :
    BackupApi.restoreAssessments operator now pid
      (as0.map (BackupApi.assessmentJson S)) =
    .ok (as0.map (restoredAssessment now),
      (as0.map (fun a => S.selections.filter
        (fun s => s.assessment_id == a.id))).flatten) := by
  induction as0 with
  | nil => simp [BackupApi.restoreAssessments]
  | cons a rest ih =>
    have h1 := restoreAssessment_json S operator now a (hwf a (by simp)) hsel
    rw [hpid a (by simp)] at h1
    have h2 := ih (fun x hx => hwf x (by simp [hx])) (fun x hx => hpid x (by simp [hx]))
    simp [BackupApi.restoreAssessments, h1, h2]

/-- One exported patient entry, with an id colliding with nothing stored or
pending, is inserted: the patient row with regenerated timestamps plus all
its assessments and selections. -/
theorem restorePatientEntry_json (db0 : ClinDB) (pend : Pending) (S : ClinDB)
    (operator : User) (now : Nat) (p : PatientRow)
    (hwf : wfPatientB p = true)
    (hassess : ∀ a ∈ S.assessments, wfAssessmentB a = true)
    (hsel : ∀ s ∈ S.selections, wfSelectionB s = true)
    (hnew : (db0.patients ++ pend.patients).any (fun r => r.id == p.id) = false) :
    BackupApi.restorePatientEntry db0 pend operator now
      (BackupApi.patientJson S p) =
    .ok (.inserted (restoredPatient now p)
      ((exportedAssessOf S p).map (restoredAssessment now))
      (((exportedAssessOf S p).map (fun a => S.selections.filter
        (fun s => s.assessment_id == a.id))).flatten)) := by
  have has := restoreAssessments_json S operator now p.id (exportedAssessOf S p)
    (fun x hx => hassess x (List.mem_filter.mp
      ((insSortBy_perm _ _).mem_iff.mp hx)).1)
    (fun x hx => by
      have := (List.mem_filter.mp ((insSortBy_perm _ _).mem_iff.mp hx)).2
      simpa using this)
    hsel
  obtain ⟨pid, pname, pdob, pgen, pph, pem, pdia, pmh, pocc, pnts, pcat, pupd, pcb⟩ := p
  simp only [wfPatientB, Bool.and_eq_true, beq_iff_eq, Bool.not_eq_true',
    beq_eq_false_iff_ne, ne_eq] at hwf
  obtain ⟨⟨hid, hdob⟩, hcb⟩ := hwf
  match hpcb : pcb with
  | none => simp [hpcb] at hcb
  | some cb =>
    simp only [hpcb] at hcb
    have hcb2 : pyUuid cb = some cb := by simpa using hcb
    simp only [exportedAssessOf] at has
    simp only at hnew
    simp [BackupApi.patientJson, BackupApi.restorePatientEntry, kvsHas, kvsGet,
      BackupApi.kvsGetD, BackupApi.validate_uuid, hid, hnew,
      BackupApi.createdByFallback, BackupApi.strOfPy, hcb2,
      jAsOptStr_jOfOptStr, jAsOptStr_jOfTruthyStr _ hdob, BackupApi.jIterList,
      has, restoredPatient, exportedAssessOf]

/-- Assessment rows inserted for the exported patients `ps`. -/
def exportedAssessRows (S : ClinDB) (now : Nat) (ps : List PatientRow) :
    List AssessmentRow :=
  (ps.map (fun p => (exportedAssessOf S p).map (restoredAssessment now))).flatten

/-- Selection rows inserted for the exported patients `ps`. -/
def exportedSelRows (S : ClinDB) (ps : List PatientRow) : List SelectionRow :=
  (ps.map (fun p => ((exportedAssessOf S p).map (fun a => S.selections.filter
    (fun s => s.assessment_id == a.id))).flatten)).flatten

/-- Restoring the exported patient entries into an empty store inserts every
patient (with its nested rows) exactly once and counts each one. -/
theorem restoreLoop_export (S : ClinDB) (operator : User) (now : Nat) :
    ∀ (ps : List PatientRow) (pend : Pending) (rc sc : Nat),
    (∀ p ∈ ps, wfPatientB p = true) →
    (∀ a ∈ S.assessments, wfAssessmentB a = true) →
    (∀ s ∈ S.selections, wfSelectionB s = true) →
    (ps.map (fun p => p.id)).Nodup →
    (∀ p ∈ ps, ∀ r ∈ pend.patients, r.id ≠ p.id) →
    BackupApi.restoreLoop ⟨[], [], []⟩ operator now
      (ps.map (BackupApi.patientJson S)) pend rc sc =
    .ok (⟨pend.patients ++ ps.map (restoredPatient now),
          pend.assessments ++ exportedAssessRows S now ps,
          pend.selections ++ exportedSelRows S ps⟩, rc + ps.length, sc) := by
  intro ps
  induction ps with
  | nil =>
    intro pend rc sc _ _ _ _ _
    simp [BackupApi.restoreLoop, exportedAssessRows, exportedSelRows]
  | cons p rest ih =>
    intro pend rc sc hwf hassess hsel hnd hdisj
    have hnew : (([] : List PatientRow) ++ pend.patients).any
        (fun r => r.id == p.id) = false := by
      rw [List.any_eq_false]
      intro r hr
      simp only [List.nil_append] at hr
      simp [hdisj p (by simp) r hr]
    have hentry := restorePatientEntry_json ⟨[], [], []⟩ pend S operator now p
      (hwf p (by simp)) hassess hsel hnew
    have hih := ih ⟨pend.patients ++ [restoredPatient now p],
        pend.assessments ++ (exportedAssessOf S p).map (restoredAssessment now),
        pend.selections ++ ((exportedAssessOf S p).map (fun a =>
          S.selections.filter (fun s => s.assessment_id == a.id))).flatten⟩
      (rc + 1) sc
      (fun x hx => hwf x (by simp [hx])) hassess hsel
      (by
        have := hnd
        simp only [List.map_cons, List.nodup_cons] at this
        exact this.2)
      (by
        intro q hq r hr
        simp only [List.mem_append, List.mem_singleton] at hr
        rcases hr with hr | hr
        · exact hdisj q (by simp [hq]) r hr
        · subst hr
          have : p.id ≠ q.id := by
            have hnd2 := hnd
            simp only [List.map_cons, List.nodup_cons] at hnd2
            intro h
            exact hnd2.1 (h ▸ List.mem_map_of_mem (fun x => x.id) hq)
          simpa [restoredPatient] using this)
    simp only [List.map_cons, BackupApi.restoreLoop, hentry, hih]
    simp [exportedAssessRows, exportedSelRows, List.append_assoc]
    omega

/-- `flatMap` form of the partition permutation. -/
theorem flatMap_filter_perm {α : Type} (key : α → String) (ks : List String)
    (l : List α) (hnd : ks.Nodup) (hcov : ∀ x ∈ l, key x ∈ ks) :
    (ks.flatMap (fun k => l.filter (fun x => key x == k))).Perm l := by
  rw [List.flatMap_def]
  exact flatten_filter_perm key ks l hnd hcov

/-- Concatenating the per-patient assessment filters of a duplicate-free,
covering patient list permutes the assessments table. -/
theorem flatMap_assess_perm (S : ClinDB) (rows : List PatientRow)
    (hnd : (rows.map (fun p => p.id)).Nodup)
    (hafk : ∀ a ∈ S.assessments, a.patient_id ∈ rows.map (fun p => p.id)) :
    (rows.flatMap (fun p => S.assessments.filter
      (fun a => a.patient_id == p.id))).Perm S.assessments := by
  have h1 : rows.flatMap (fun p => S.assessments.filter
      (fun a => a.patient_id == p.id)) =
      (rows.map (fun p => p.id)).flatMap (fun k => S.assessments.filter
        (fun a => a.patient_id == k)) := by
    rw [List.flatMap_map]
  rw [h1]
  exact flatMap_filter_perm _ _ _ hnd hafk

/-- C3 amended: exporting and restoring into an empty store succeeds,
reports every patient restored, and reproduces — up to order — the same
patients, assessments and selections with the same ids and the same values
for every field that the envelope carries and restore writes: all selection
fields, and all patient/assessment fields except `created_at`/`updated_at`
(regenerated by the server default at restore time) and the assessment
`soap_notes` (absent from the envelope).  Hypotheses: both operators are
admins, the serializer and cipher collaborators invert on this document, and
the source store is well-formed (canonical duplicate-free uuids, non-null
canonical `created_by`, valid severities, non-empty date renderings, JSONB
payloads that are not the literal JSON null, and intact foreign keys). -/
theorem c3_backup_restore_roundtrip (F : FernetI) (dumps : JVal → List Nat)
    (parse : List Nat → Option JVal) (S : ClinDB) (expUser operator : User)
    (now1 now2 : Nat)
    (hexp : expUser.role = "admin") (hop : operator.role = "admin")
    (hfb : F.decBytes (F.encBytes (dumps (BackupApi.backupJson S expUser now1))) =
      some (dumps (BackupApi.backupJson S expUser now1)))
    (hparse : parse (dumps (BackupApi.backupJson S expUser now1)) =
      some (BackupApi.backupJson S expUser now1))
    (hwfp : ∀ p ∈ S.patients, wfPatientB p = true)
    (hwfa : ∀ a ∈ S.assessments, wfAssessmentB a = true)
    (hwfs : ∀ s ∈ S.selections, wfSelectionB s = true)
    (hpnd : (S.patients.map (fun p => p.id)).Nodup)
    (hand : (S.assessments.map (fun a => a.id)).Nodup)
    (hafk : ∀ a ∈ S.assessments, a.patient_id ∈ S.patients.map (fun p => p.id))
    (hsfk : ∀ s ∈ S.selections, s.assessment_id ∈ S.assessments.map (fun a => a.id)) :
    ∃ blob db2,
    BackupApi.create_backup F dumps S expUser now1 = .ok blob
    ∧ BackupApi.restore_backup F parse ⟨[], [], []⟩ operator now2 blob =
      (.ok ⟨"Backup restored successfully", S.patients.length⟩, db2)
    ∧ db2.patients.Perm (S.patients.map (restoredPatient now2))
    ∧ db2.assessments.Perm (S.assessments.map (restoredAssessment now2))
    ∧ db2.selections.Perm S.selections := by
  have hsp : (BackupApi.sortPatients S.patients).Perm S.patients :=
    insSortBy_perm _ _
  have hspids : ((BackupApi.sortPatients S.patients).map (fun p => p.id)).Perm
      (S.patients.map (fun p => p.id)) := hsp.map _
  have hsnd : ((BackupApi.sortPatients S.patients).map (fun p => p.id)).Nodup :=
    hspids.symm.nodup hpnd
  have hloop := restoreLoop_export S operator now2 (BackupApi.sortPatients S.patients)
    ⟨[], [], []⟩ 0 0
    (fun p hp => hwfp p (hsp.mem_iff.mp hp)) hwfa hwfs hsnd
    (fun p _ r hr => absurd hr (List.not_mem_nil r))
  have hA : ((BackupApi.sortPatients S.patients).flatMap (fun p =>
      S.assessments.filter (fun a => a.patient_id == p.id))).Perm S.assessments :=
    flatMap_assess_perm S _ hsnd
      (fun a ha => hspids.symm.mem_iff.mp (hafk a ha))
  have hP2 : (exportedAssessRows S now2 (BackupApi.sortPatients S.patients)).Perm
      (S.assessments.map (restoredAssessment now2)) := by
    have e1 : exportedAssessRows S now2 (BackupApi.sortPatients S.patients) =
        (BackupApi.sortPatients S.patients).flatMap (fun p =>
          (exportedAssessOf S p).map (restoredAssessment now2)) := by
      rw [exportedAssessRows, List.flatMap_def]
    rw [e1]
    have e2 : ((BackupApi.sortPatients S.patients).flatMap (fun p =>
        (exportedAssessOf S p).map (restoredAssessment now2))).Perm
        ((BackupApi.sortPatients S.patients).flatMap (fun p =>
          (S.assessments.filter (fun a => a.patient_id == p.id)).map
            (restoredAssessment now2))) :=
      List.Perm.flatMap_left _ (fun p _ => (insSortBy_perm _ _).map _)
    refine e2.trans ?_
    have e3 : (BackupApi.sortPatients S.patients).flatMap (fun p =>
        (S.assessments.filter (fun a => a.patient_id == p.id)).map
          (restoredAssessment now2)) =
        ((BackupApi.sortPatients S.patients).flatMap (fun p =>
          S.assessments.filter (fun a => a.patient_id == p.id))).map
            (restoredAssessment now2) := by
      rw [List.map_flatMap]
    rw [e3]
    exact hA.map _
  have hP3 : (exportedSelRows S (BackupApi.sortPatients S.patients)).Perm
      S.selections := by
    have e1 : exportedSelRows S (BackupApi.sortPatients S.patients) =
        (BackupApi.sortPatients S.patients).flatMap (fun p =>
          (exportedAssessOf S p).flatMap (fun a =>
            S.selections.filter (fun s => s.assessment_id == a.id))) := by
      simp [exportedSelRows, List.flatMap_def]
    rw [e1]
    have e2 : ((BackupApi.sortPatients S.patients).flatMap (fun p =>
        (exportedAssessOf S p).flatMap (fun a =>
          S.selections.filter (fun s => s.assessment_id == a.id)))).Perm
        ((BackupApi.sortPatients S.patients).flatMap (fun p =>
          (S.assessments.filter (fun a => a.patient_id == p.id)).flatMap (fun a =>
            S.selections.filter (fun s => s.assessment_id == a.id)))) :=
      List.Perm.flatMap_left _ (fun p _ =>
        List.Perm.flatMap_right _ (insSortBy_perm _ _))
    refine e2.trans ?_
    rw [← List.flatMap_assoc]
    refine (List.Perm.flatMap_right _ hA).trans ?_
    have e3 : S.assessments.flatMap (fun a =>
        S.selections.filter (fun s => s.assessment_id == a.id)) =
        (S.assessments.map (fun a => a.id)).flatMap (fun k =>
          S.selections.filter (fun s => s.assessment_id == k)) := by
      rw [List.flatMap_map]
    rw [e3]
    exact flatMap_filter_perm _ _ _ hand hsfk
  refine ⟨EncSvc.encrypt_bytes F (dumps (BackupApi.backupJson S expUser now1)),
    ⟨(BackupApi.sortPatients S.patients).map (restoredPatient now2),
     exportedAssessRows S now2 (BackupApi.sortPatients S.patients),
     exportedSelRows S (BackupApi.sortPatients S.patients)⟩, ?_, ?_, ?_, ?_, ?_⟩
  · simp [BackupApi.create_backup, hexp]
  · have hrole : (operator.role == "admin") = true := by simp [hop]
    have hver : jHasKey (BackupApi.backupJson S expUser now1) "version" = .ok true := by
      simp [jHasKey, BackupApi.backupJson, kvsHas]
    have hpat : jHasKey (BackupApi.backupJson S expUser now1) "patients" = .ok true := by
      simp [jHasKey, BackupApi.backupJson, kvsHas]
    have hidx : jIndex (BackupApi.backupJson S expUser now1) "patients" =
        .ok (.arr ((BackupApi.sortPatients S.patients).map
          (BackupApi.patientJson S))) := by
      simp [jIndex, BackupApi.backupJson, kvsGet]
    simp only [BackupApi.restore_backup, EncSvc.encrypt_bytes, hrole, if_true,
      hfb, hparse, hver, hpat, hidx, hloop]
    simp [hsp.length_eq]
  · simpa using hsp.map (restoredPatient now2)
  · simpa using hP2
  · simpa using hP3

/-- The toy cipher inverts its own byte encryption. -/
theorem toyFernet_bytes_roundtrip (b : List Nat) :
    toyFernet.decBytes (toyFernet.encBytes b) = some b := rfl

/-- Concrete admin operator for the backup theorems. -/
def adminU : User := ⟨"a1", "boss", "b@x", "bc:p", "Boss", "admin", true, none⟩

/-- Source patient of the C3 counterexample, with `created_at = 5`. -/
def p0 : PatientRow :=
  ⟨"11111111-1111-1111-1111-111111111111", some "Kim", none, none, none, none,
   none, none, none, none, 5, 5, some "22222222-2222-2222-2222-222222222222"⟩

/-- One-patient source store of the C3 counterexample. -/
def S0 : ClinDB := ⟨[p0], [], []⟩

/-- The exported blob of `S0` under the toy collaborators. -/
def c3blob : List Nat :=
  EncSvc.encrypt_bytes toyFernet (dumpsToy (BackupApi.backupJson S0 adminU 7))

set_option maxRecDepth 4000 in
/-- C3 counterexample: exporting the one-patient store and restoring it into
an empty store reproduces the patient's id and carried fields but NOT all
field values — the stored `created_at`/`updated_at` (5) come back as the
restore-time server default (99).  The claim's "same field values for every
patient" fails at this input. -/
theorem c3_roundtrip_counterexample :
    BackupApi.create_backup toyFernet dumpsToy S0 adminU 7 = .ok c3blob
    ∧ (BackupApi.restore_backup toyFernet parseToy ⟨[], [], []⟩ adminU 99
        c3blob).2.patients = [{ p0 with created_at := 99, updated_at := 99 }]
    ∧ p0.created_at = 5
    ∧ ({ p0 with created_at := 99, updated_at := 99 } : PatientRow).created_at ≠
        p0.created_at := by
  refine ⟨rfl, ?_, rfl, by decide⟩
  rfl

/-- Witness patient row. -/
def pW : PatientRow :=
  ⟨"aaaaaaaa-aaaa-aaaa-aaaa-aaaaaaaaaaaa", some "Kim", some "1990-01-01",
   some "f", some "gAAAAAenc", none, none, none, none, none, 5, 6,
   some "bbbbbbbb-bbbb-bbbb-bbbb-bbbbbbbbbbbb"⟩

/-- Witness assessment row. -/
def aW : AssessmentRow :=
  ⟨"cccccccc-cccc-cccc-cccc-cccccccccccc", "aaaaaaaa-aaaa-aaaa-aaaa-aaaaaaaaaaaa",
   some "2024-01-02", some "s", some "gAAAAAn", some (.obj [("k", .bool true)]),
   none, none, "bbbbbbbb-bbbb-bbbb-bbbb-bbbbbbbbbbbb", 7, 8⟩

/-- Witness selection row. -/
def sW : SelectionRow :=
  ⟨"dddddddd-dddd-dddd-dddd-dddddddddddd", "cccccccc-cccc-cccc-cccc-cccccccccccc",
   some "m1", none, some "neck", none, some "L", "mild", true, none⟩

/-- Witness source store: one patient with one assessment and one selection. -/
def SW : ClinDB := ⟨[pW], [aW], [sW]⟩

set_option maxRecDepth 8000 in
/-- Witness for C3 (amended) at the concrete store `SW` under the toy
collaborators. -/
theorem c3_backup_restore_roundtrip_witness :
    ∃ blob db2,
    BackupApi.create_backup toyFernet dumpsToy SW adminU 7 = .ok blob
    ∧ BackupApi.restore_backup toyFernet parseToy ⟨[], [], []⟩ adminU 99 blob =
      (.ok ⟨"Backup restored successfully", SW.patients.length⟩, db2)
    ∧ db2.patients.Perm (SW.patients.map (restoredPatient 99))
    ∧ db2.assessments.Perm (SW.assessments.map (restoredAssessment 99))
    ∧ db2.selections.Perm SW.selections :=
  c3_backup_restore_roundtrip toyFernet dumpsToy parseToy SW adminU adminU 7 99
    rfl rfl (toyFernet_bytes_roundtrip _) rfl
    (by decide) (by decide) (by decide) (by decide) (by decide)
    (by decide) (by decide)

/-- C4 amended: a patient entry whose validated id matches an existing (or
already-flushed) patient row is skipped in full — the step inspects nothing
nested, adds no pending row, and leaves both the restored and the skipped
counters untouched — and a successful restore only ever appends rows, never
deleting or overwriting an existing one.  The skip is, however, counted
nowhere: the internal skipped counter tracks only malformed entries, and the
response reports only `restored_patients`. -/
theorem c4_existing_patient_skipped (db : ClinDB) (operator : User) (now : Nat)
    (pend : Pending) (rc sc : Nat) (kvs : List (String × JVal))
    (rest : List JVal) (pid : String)
    (hkid : kvsHas kvs "id" = true) (hkname : kvsHas kvs "name" = true)
    (hid : BackupApi.validate_uuid (BackupApi.kvsGetD kvs "id") "patient.id" = .ok pid)
    (hex : (db.patients ++ pend.patients).any (fun r => r.id == pid) = true) :
    BackupApi.restorePatientEntry db pend operator now (.obj kvs) = .ok .existing
    ∧ BackupApi.restoreLoop db operator now (.obj kvs :: rest) pend rc sc =
      BackupApi.restoreLoop db operator now rest pend rc sc
    ∧ (∀ (F : FernetI) (parse : List Nat → Option JVal) (blob : List Nat)
        (resp : RestoreResp) (db2 : ClinDB),
        BackupApi.restore_backup F parse db operator now blob = (.ok resp, db2) →
        ∃ newP newA newS, db2 = ⟨db.patients ++ newP, db.assessments ++ newA,
          db.selections ++ newS⟩) := by
  have hstep : BackupApi.restorePatientEntry db pend operator now (.obj kvs) =
      .ok .existing := by
    simp [BackupApi.restorePatientEntry, hkid, hkname, hid, hex]
  refine ⟨hstep, ?_, ?_⟩
  · simp [BackupApi.restoreLoop, hstep]
  · intro F parse blob resp db2 h
    simp only [BackupApi.restore_backup] at h
    repeat' split at h
    all_goals simp only [Prod.mk.injEq] at h
    all_goals first
      | exact ⟨_, _, _, h.2.symm⟩
      | exact absurd h.1 (by simp)

/-- Source store of the C4 counterexample: `p0` with one nested assessment
and selection. -/
def S1 : ClinDB :=
  ⟨[p0],
   [⟨"33333333-3333-3333-3333-333333333333", "11111111-1111-1111-1111-111111111111",
     some "2024-01-02", none, none, none, none, none,
     "22222222-2222-2222-2222-222222222222", 7, 8⟩],
   [⟨"44444444-4444-4444-4444-444444444444", "33333333-3333-3333-3333-333333333333",
     some "m1", none, none, none, none, "mild", false, none⟩]⟩

/-- The exported blob of `S1` under the toy collaborators. -/
def c4blob : List Nat :=
  EncSvc.encrypt_bytes toyFernet (dumpsToy (BackupApi.backupJson S1 adminU 7))

/-- Target store of the C4 counterexample, already holding `p0`. -/
def db4 : ClinDB := ⟨[p0], [], []⟩

set_option maxRecDepth 8000 in
/-- C4 counterexample: restoring a backup whose only patient already exists
skips it wholesale (nothing inserted — the store is unchanged) but counts it
NOWHERE: the final loop counters are `(0, 0)` — the internal skipped counter
(which tracks only malformed entries) stays 0 — and the response carries
only `restored_patients = 0`.  The claim that skipped existing patients are
"counted separately from the inserted ones reported by the operation" fails
at this input. -/
theorem c4_skip_not_counted_counterexample :
    BackupApi.restoreLoop db4 adminU 99
      ((BackupApi.sortPatients S1.patients).map (BackupApi.patientJson S1))
      ⟨[], [], []⟩ 0 0 = .ok (⟨[], [], []⟩, 0, 0)
    ∧ BackupApi.restore_backup toyFernet parseToy db4 adminU 99 c4blob =
      (.ok ⟨"Backup restored successfully", 0⟩, ⟨[p0], [], []⟩) := by
  constructor
  · rfl
  · rfl

/-- Witness for C4 (amended) at a concrete existing-id entry carrying nested
data. -/
theorem c4_existing_patient_skipped_witness :
    BackupApi.restorePatientEntry db4 ⟨[], [], []⟩ adminU 99
      (.obj [("id", .str "11111111-1111-1111-1111-111111111111"),
             ("name", .str "Other"),
             ("assessments", .str "not even a list")]) = .ok .existing
    ∧ BackupApi.restoreLoop db4 adminU 99
        [.obj [("id", .str "11111111-1111-1111-1111-111111111111"),
               ("name", .str "Other"),
               ("assessments", .str "not even a list")]] ⟨[], [], []⟩ 0 0 =
      BackupApi.restoreLoop db4 adminU 99 [] ⟨[], [], []⟩ 0 0 :=
  ⟨(c4_existing_patient_skipped db4 adminU 99 ⟨[], [], []⟩ 0 0
      [("id", .str "11111111-1111-1111-1111-111111111111"), ("name", .str "Other"),
       ("assessments", .str "not even a list")] []
      "11111111-1111-1111-1111-111111111111"
      (by decide) (by decide) rfl (by decide)).1,
   (c4_existing_patient_skipped db4 adminU 99 ⟨[], [], []⟩ 0 0
      [("id", .str "11111111-1111-1111-1111-111111111111"), ("name", .str "Other"),
       ("assessments", .str "not even a list")] []
      "11111111-1111-1111-1111-111111111111"
      (by decide) (by decide) rfl (by decide)).2.1⟩

/-- Splitting the selections loop at any point: the prefix runs first, an
error in it propagates, and the tails concatenate. -/
theorem restoreSelections_append (aid : String) (pre post : List JVal) :
    BackupApi.restoreSelections aid (pre ++ post) =
      match BackupApi.restoreSelections aid pre with
      | .error e => .error e
      | .ok rows1 =>
        match BackupApi.restoreSelections aid post with
        | .error e => .error e
        | .ok rows2 => .ok (rows1 ++ rows2) := by
  induction pre with
  | nil =>
    simp only [List.nil_append, BackupApi.restoreSelections]
    cases BackupApi.restoreSelections aid post <;> simp
  | cons s rest ih =>
    simp only [List.cons_append, BackupApi.restoreSelections, List.append_eq]
    cases BackupApi.restoreSelection aid s with
    | error e => simp
    | ok r =>
      cases r with
      | none => simpa using ih
      | some row =>
        rw [ih]
        cases BackupApi.restoreSelections aid rest with
        | error e => simp
        | ok rows1 =>
          cases BackupApi.restoreSelections aid post <;> simp

/-- Splitting the assessments loop at any point. -/
theorem restoreAssessments_append (operator : User) (now : Nat) (pid : String)
    (pre post : List JVal) :
    BackupApi.restoreAssessments operator now pid (pre ++ post) =
      match BackupApi.restoreAssessments operator now pid pre with
      | .error e => .error e
      | .ok (a1, s1) =>
        match BackupApi.restoreAssessments operator now pid post with
        | .error e => .error e
        | .ok (a2, s2) => .ok (a1 ++ a2, s1 ++ s2) := by
  induction pre with
  | nil =>
    simp only [List.nil_append, BackupApi.restoreAssessments]
    cases h : BackupApi.restoreAssessments operator now pid post with
    | error e => simp
    | ok r => obtain ⟨a2, s2⟩ := r; simp
  | cons a rest ih =>
    simp only [List.cons_append, BackupApi.restoreAssessments, List.append_eq]
    cases BackupApi.restoreAssessment operator now pid a with
    | error e => simp
    | ok r =>
      cases r with
      | none => simpa using ih
      | some rowpair =>
        obtain ⟨arow, srows⟩ := rowpair
        rw [ih]
        cases BackupApi.restoreAssessments operator now pid rest with
        | error e => simp
        | ok r1 =>
          obtain ⟨a1, s1⟩ := r1
          cases h2 : BackupApi.restoreAssessments operator now pid post with
          | error e => simp
          | ok r2 => obtain ⟨a2, s2⟩ := r2; simp

/-- Splitting the patients loop at any point. -/
theorem restoreLoop_append (db : ClinDB) (operator : User) (now : Nat)
    (pre post : List JVal) : ∀ (pend : Pending) (rc sc : Nat),
    BackupApi.restoreLoop db operator now (pre ++ post) pend rc sc =
      match BackupApi.restoreLoop db operator now pre pend rc sc with
      | .error e => .error e
      | .ok (pend1, rc1, sc1) =>
        BackupApi.restoreLoop db operator now post pend1 rc1 sc1 := by
  induction pre with
  | nil =>
    intro pend rc sc
    simp [BackupApi.restoreLoop]
  | cons entry rest ih =>
    intro pend rc sc
    simp only [List.cons_append, BackupApi.restoreLoop, List.append_eq]
    cases BackupApi.restorePatientEntry db pend operator now entry with
    | error e => simp
    | ok r =>
      cases r with
      | malformed => exact ih pend rc (sc + 1)
      | existing => exact ih pend rc sc
      | inserted prow arows srows => exact ih _ (rc + 1) sc

/-- A selection entry whose id string fails the UUID check raises the
field-naming 400. -/
theorem restoreSelection_bad_id (aid : String) (skvs : List (String × JVal))
    (s : String) (hkid : kvsHas skvs "id" = true)
    (hkm : kvsHas skvs "mesh_id" = true)
    (hgid : BackupApi.kvsGetD skvs "id" = .str s) (hbad : pyUuid s = none) :
    BackupApi.restoreSelection aid (.obj skvs) = .error (.http 400
      ("Invalid UUID in backup data: selection.id=" ++ pyRepr (.str s))) := by
  have hval : BackupApi.validate_uuid (BackupApi.kvsGetD skvs "id") "selection.id" =
      .error (.http 400
        ("Invalid UUID in backup data: selection.id=" ++ pyRepr (.str s))) := by
    rw [hgid]
    simp [BackupApi.validate_uuid, hbad]
  simp [BackupApi.restoreSelection, hkid, hkm, hval]

/-- An assessment entry whose id string fails the UUID check raises the
field-naming 400. -/
theorem restoreAssessment_bad_id (operator : User) (now : Nat) (pid : String)
    (akvs : List (String × JVal)) (s : String)
    (hkid : kvsHas akvs "id" = true)
    (hgid : BackupApi.kvsGetD akvs "id" = .str s) (hbad : pyUuid s = none) :
    BackupApi.restoreAssessment operator now pid (.obj akvs) = .error (.http 400
      ("Invalid UUID in backup data: assessment.id=" ++ pyRepr (.str s))) := by
  have hval : BackupApi.validate_uuid (BackupApi.kvsGetD akvs "id") "assessment.id" =
      .error (.http 400
        ("Invalid UUID in backup data: assessment.id=" ++ pyRepr (.str s))) := by
    rw [hgid]
    simp [BackupApi.validate_uuid, hbad]
  simp [BackupApi.restoreAssessment, hkid, hval]

/-- An assessment entry whose selections loop reaches a failing selection
propagates that error. -/
theorem restoreAssessment_sel_error (operator : User) (now : Nat) (pid : String)
    (akvs : List (String × JVal)) (aid acb : String) (preS postS : List JVal)
    (bad : JVal) (rows1 : List SelectionRow) (e : Err)
    (hkid : kvsHas akvs "id" = true)
    (hval : BackupApi.validate_uuid (BackupApi.kvsGetD akvs "id") "assessment.id" = .ok aid)
    (hcb : BackupApi.createdByFallback (kvsGet akvs "created_by") operator.id = .ok acb)
    (hsels : kvsGet akvs "selections" = some (.arr (preS ++ bad :: postS)))
    (hpre : BackupApi.restoreSelections aid preS = .ok rows1)
    (hbad : BackupApi.restoreSelection aid bad = .error e) :
    BackupApi.restoreAssessment operator now pid (.obj akvs) = .error e := by
  have hrest : BackupApi.restoreSelections aid (preS ++ bad :: postS) = .error e := by
    rw [restoreSelections_append, hpre]
    simp only [BackupApi.restoreSelections, hbad]
  simp [BackupApi.restoreAssessment, hkid, hval, hcb, hsels, BackupApi.jIterList, hrest]

/-- A patient entry whose id string fails the UUID check raises the
field-naming 400. -/
theorem restorePatientEntry_bad_id (db : ClinDB) (pend : Pending)
    (operator : User) (now : Nat) (ekvs : List (String × JVal)) (s : String)
    (hkid : kvsHas ekvs "id" = true) (hkname : kvsHas ekvs "name" = true)
    (hgid : BackupApi.kvsGetD ekvs "id" = .str s) (hbad : pyUuid s = none) :
    BackupApi.restorePatientEntry db pend operator now (.obj ekvs) = .error (.http 400
      ("Invalid UUID in backup data: patient.id=" ++ pyRepr (.str s))) := by
  have hval : BackupApi.validate_uuid (BackupApi.kvsGetD ekvs "id") "patient.id" =
      .error (.http 400
        ("Invalid UUID in backup data: patient.id=" ++ pyRepr (.str s))) := by
    rw [hgid]
    simp [BackupApi.validate_uuid, hbad]
  simp [BackupApi.restorePatientEntry, hkid, hkname, hval]

/-- A patient entry whose assessments loop reaches a failing assessment
propagates that error. -/
theorem restorePatientEntry_assess_error (db : ClinDB) (pend : Pending)
    (operator : User) (now : Nat) (ekvs : List (String × JVal)) (pid cb : String)
    (preA postA : List JVal) (bad : JVal) (a1 : List AssessmentRow)
    (s1 : List SelectionRow) (e : Err)
    (hkid : kvsHas ekvs "id" = true) (hkname : kvsHas ekvs "name" = true)
    (hval : BackupApi.validate_uuid (BackupApi.kvsGetD ekvs "id") "patient.id" = .ok pid)
    (hnew : (db.patients ++ pend.patients).any (fun r => r.id == pid) = false)
    (hcb : BackupApi.createdByFallback (kvsGet ekvs "created_by") operator.id = .ok cb)
    (has : kvsGet ekvs "assessments" = some (.arr (preA ++ bad :: postA)))
    (hpre : BackupApi.restoreAssessments operator now pid preA = .ok (a1, s1))
    (hbad : BackupApi.restoreAssessment operator now pid bad = .error e) :
    BackupApi.restorePatientEntry db pend operator now (.obj ekvs) = .error e := by
  have hrest : BackupApi.restoreAssessments operator now pid (preA ++ bad :: postA) =
      .error e := by
    rw [restoreAssessments_append, hpre]
    simp only [BackupApi.restoreAssessments, hbad]
  simp [BackupApi.restorePatientEntry, hkid, hkname, hval, hnew, hcb, has,
    BackupApi.jIterList, hrest]

/-- A restore whose patients loop reaches a failing entry aborts with that
error before the commit, leaving the store unchanged. -/
theorem restore_backup_abort_at (F : FernetI) (parse : List Nat → Option JVal)
    (db : ClinDB) (operator : User) (now : Nat) (blob jb : List Nat)
    (kvs : List (String × JVal)) (pre post : List JVal) (entry : JVal)
    (pend1 : Pending) (rc1 sc1 : Nat) (e : Err)
    (hop : operator.role = "admin")
    (hdec : F.decBytes blob = some jb) (hp : parse jb = some (.obj kvs))
    (hver : kvsHas kvs "version" = true) (hpat : kvsHas kvs "patients" = true)
    (hget : kvsGet kvs "patients" = some (.arr (pre ++ entry :: post)))
    (hpre : BackupApi.restoreLoop db operator now pre ⟨[], [], []⟩ 0 0 =
      .ok (pend1, rc1, sc1))
    (hbad : BackupApi.restorePatientEntry db pend1 operator now entry = .error e) :
    BackupApi.restore_backup F parse db operator now blob = (.error e, db) := by
  have hrole : (operator.role == "admin") = true := by simp [hop]
  have hidx : jIndex (.obj kvs) "patients" = .ok (.arr (pre ++ entry :: post)) := by
    simp [jIndex, hget]
  have hloop : BackupApi.restoreLoop db operator now (pre ++ entry :: post)
      ⟨[], [], []⟩ 0 0 = .error e := by
    rw [restoreLoop_append, hpre]
    simp only [BackupApi.restoreLoop, hbad]
  simp [BackupApi.restore_backup, hrole, hdec, hp, jHasKey, hver, hpat, hidx, hloop]

/-- C5 amended: restore is all-or-nothing around its single final commit.  A
blob that fails to decrypt or to parse is rejected with the generic 400
"Invalid or corrupted backup file"; an envelope missing the version tag or
the patient list, or whose patient list is not a list, is rejected with a
400 format error; a reached id string that the UUID constructor rejects —
whether a patient, assessment or selection id, at any position and nesting
depth — aborts the whole operation with a 400 error NAMING THE OFFENDING
FIELD AND VALUE (not the generic corrupted-backup message); every error
outcome leaves the store exactly as it was (no row inserted during the run
persists); and a run that returns success commits all of its inserts
together at the end, only appending.  The rejected-id conjuncts restrict the
id string to `pyUuidRejects` and `asciiPlain`, the syntactic region on which
the modelled constructor and message provably coincide with the stdlib
ones. -/
theorem c5_restore_all_or_nothing (F : FernetI) (parse : List Nat → Option JVal)
    (op : User) (now : Nat) (hop : op.role = "admin") :
    (∀ (db : ClinDB) (blob : List Nat), F.decBytes blob = none →
      BackupApi.restore_backup F parse db op now blob =
        (.error (.http 400 "Invalid or corrupted backup file"), db))
    ∧ (∀ (db : ClinDB) (blob jb : List Nat), F.decBytes blob = some jb →
      parse jb = none →
      BackupApi.restore_backup F parse db op now blob =
        (.error (.http 400 "Invalid or corrupted backup file"), db))
    ∧ (∀ (db : ClinDB) (blob jb : List Nat) (kvs : List (String × JVal)),
      F.decBytes blob = some jb → parse jb = some (.obj kvs) →
      kvsHas kvs "version" = false →
      BackupApi.restore_backup F parse db op now blob =
        (.error (.http 400 "Invalid backup format"), db))
    ∧ (∀ (db : ClinDB) (blob jb : List Nat) (kvs : List (String × JVal)),
      F.decBytes blob = some jb → parse jb = some (.obj kvs) →
      kvsHas kvs "version" = true → kvsHas kvs "patients" = false →
      BackupApi.restore_backup F parse db op now blob =
        (.error (.http 400 "Invalid backup format"), db))
    ∧ (∀ (db : ClinDB) (blob jb : List Nat) (kvs : List (String × JVal)) (v : JVal),
      F.decBytes blob = some jb → parse jb = some (.obj kvs) →
      kvsHas kvs "version" = true → kvsHas kvs "patients" = true →
      kvsGet kvs "patients" = some v → (∀ xs, v ≠ .arr xs) →
      BackupApi.restore_backup F parse db op now blob =
        (.error (.http 400 "Invalid backup format: patients must be a list"), db))
    ∧ (∀ (db : ClinDB) (blob jb : List Nat) (kvs ekvs : List (String × JVal))
        (pre post : List JVal) (pend1 : Pending) (rc1 sc1 : Nat) (s : String),
      F.decBytes blob = some jb → parse jb = some (.obj kvs) →
      kvsHas kvs "version" = true → kvsHas kvs "patients" = true →
      kvsGet kvs "patients" = some (.arr (pre ++ (.obj ekvs) :: post)) →
      BackupApi.restoreLoop db op now pre ⟨[], [], []⟩ 0 0 = .ok (pend1, rc1, sc1) →
      kvsHas ekvs "id" = true → kvsHas ekvs "name" = true →
      BackupApi.kvsGetD ekvs "id" = .str s →
      pyUuidRejects s = true → asciiPlain s = true →
      BackupApi.restore_backup F parse db op now blob =
        (.error (.http 400
          ("Invalid UUID in backup data: patient.id=" ++ pyRepr (.str s))), db))
    ∧ (∀ (db : ClinDB) (blob jb : List Nat) (kvs ekvs akvs : List (String × JVal))
        (pre post preA postA : List JVal) (pend1 : Pending) (rc1 sc1 : Nat)
        (pid cb : String) (a1 : List AssessmentRow) (s1 : List SelectionRow)
        (s : String),
      F.decBytes blob = some jb → parse jb = some (.obj kvs) →
      kvsHas kvs "version" = true → kvsHas kvs "patients" = true →
      kvsGet kvs "patients" = some (.arr (pre ++ (.obj ekvs) :: post)) →
      BackupApi.restoreLoop db op now pre ⟨[], [], []⟩ 0 0 = .ok (pend1, rc1, sc1) →
      kvsHas ekvs "id" = true → kvsHas ekvs "name" = true →
      BackupApi.validate_uuid (BackupApi.kvsGetD ekvs "id") "patient.id" = .ok pid →
      (db.patients ++ pend1.patients).any (fun r => r.id == pid) = false →
      BackupApi.createdByFallback (kvsGet ekvs "created_by") op.id = .ok cb →
      kvsGet ekvs "assessments" = some (.arr (preA ++ (.obj akvs) :: postA)) →
      BackupApi.restoreAssessments op now pid preA = .ok (a1, s1) →
      kvsHas akvs "id" = true → BackupApi.kvsGetD akvs "id" = .str s →
      pyUuidRejects s = true → asciiPlain s = true →
      BackupApi.restore_backup F parse db op now blob =
        (.error (.http 400
          ("Invalid UUID in backup data: assessment.id=" ++ pyRepr (.str s))), db))
    ∧ (∀ (db : ClinDB) (blob jb : List Nat)
        (kvs ekvs akvs skvs : List (String × JVal))
        (pre post preA postA preS postS : List JVal) (pend1 : Pending)
        (rc1 sc1 : Nat) (pid cb aid acb : String) (a1 : List AssessmentRow)
        (s1 rows1 : List SelectionRow) (s : String),
      F.decBytes blob = some jb → parse jb = some (.obj kvs) →
      kvsHas kvs "version" = true → kvsHas kvs "patients" = true →
      kvsGet kvs "patients" = some (.arr (pre ++ (.obj ekvs) :: post)) →
      BackupApi.restoreLoop db op now pre ⟨[], [], []⟩ 0 0 = .ok (pend1, rc1, sc1) →
      kvsHas ekvs "id" = true → kvsHas ekvs "name" = true →
      BackupApi.validate_uuid (BackupApi.kvsGetD ekvs "id") "patient.id" = .ok pid →
      (db.patients ++ pend1.patients).any (fun r => r.id == pid) = false →
      BackupApi.createdByFallback (kvsGet ekvs "created_by") op.id = .ok cb →
      kvsGet ekvs "assessments" = some (.arr (preA ++ (.obj akvs) :: postA)) →
      BackupApi.restoreAssessments op now pid preA = .ok (a1, s1) →
      kvsHas akvs "id" = true →
      BackupApi.validate_uuid (BackupApi.kvsGetD akvs "id") "assessment.id" = .ok aid →
      BackupApi.createdByFallback (kvsGet akvs "created_by") op.id = .ok acb →
      kvsGet akvs "selections" = some (.arr (preS ++ (.obj skvs) :: postS)) →
      BackupApi.restoreSelections aid preS = .ok rows1 →
      kvsHas skvs "id" = true → kvsHas skvs "mesh_id" = true →
      BackupApi.kvsGetD skvs "id" = .str s →
      pyUuidRejects s = true → asciiPlain s = true →
      BackupApi.restore_backup F parse db op now blob =
        (.error (.http 400
          ("Invalid UUID in backup data: selection.id=" ++ pyRepr (.str s))), db))
    ∧ (∀ (db : ClinDB) (blob : List Nat) (e : Err) (db2 : ClinDB),
      BackupApi.restore_backup F parse db op now blob = (.error e, db2) → db2 = db)
    ∧ (∀ (db : ClinDB) (blob : List Nat) (resp : RestoreResp) (db2 : ClinDB),
      BackupApi.restore_backup F parse db op now blob = (.ok resp, db2) →
      ∃ newP newA newS, db2 = ⟨db.patients ++ newP, db.assessments ++ newA,
        db.selections ++ newS⟩) := by
  have hrole : (op.role == "admin") = true := by simp [hop]
  refine ⟨?_, ?_, ?_, ?_, ?_, ?_, ?_, ?_, ?_, ?_⟩
  · intro db blob hdec
    simp [BackupApi.restore_backup, hrole, hdec]
  · intro db blob jb hdec hp
    simp [BackupApi.restore_backup, hrole, hdec, hp]
  · intro db blob jb kvs hdec hp hv
    simp [BackupApi.restore_backup, hrole, hdec, hp, jHasKey, hv]
  · intro db blob jb kvs hdec hp hv hpat
    simp [BackupApi.restore_backup, hrole, hdec, hp, jHasKey, hv, hpat]
  · intro db blob jb kvs v hdec hp hv hpat hget hnarr
    have hidx : jIndex (.obj kvs) "patients" = .ok v := by
      simp [jIndex, hget]
    cases v with
    | arr xs => exact absurd rfl (hnarr xs)
    | null => simp [BackupApi.restore_backup, hrole, hdec, hp, jHasKey, hv, hpat, hidx]
    | bool b => simp [BackupApi.restore_backup, hrole, hdec, hp, jHasKey, hv, hpat, hidx]
    | str s => simp [BackupApi.restore_backup, hrole, hdec, hp, jHasKey, hv, hpat, hidx]
    | obj kvs2 => simp [BackupApi.restore_backup, hrole, hdec, hp, jHasKey, hv, hpat, hidx]
  · intro db blob jb kvs ekvs pre post pend1 rc1 sc1 s hdec hp hv hpat hget hpre
      hkid hkname hgid hrej hplain
    exact restore_backup_abort_at F parse db op now blob jb kvs pre post _
      pend1 rc1 sc1 _ hop hdec hp hv hpat hget hpre
      (restorePatientEntry_bad_id db pend1 op now ekvs s hkid hkname hgid
        (pyUuid_none_of_rejects s hrej))
  · intro db blob jb kvs ekvs akvs pre post preA postA pend1 rc1 sc1 pid cb a1 s1
      s hdec hp hv hpat hget hpre hkid hkname hpid hnew hcb has hpreA hakid hagid
      hrej hplain
    exact restore_backup_abort_at F parse db op now blob jb kvs pre post _
      pend1 rc1 sc1 _ hop hdec hp hv hpat hget hpre
      (restorePatientEntry_assess_error db pend1 op now ekvs pid cb preA postA _
        a1 s1 _ hkid hkname hpid hnew hcb has hpreA
        (restoreAssessment_bad_id op now pid akvs s hakid hagid
          (pyUuid_none_of_rejects s hrej)))
  · intro db blob jb kvs ekvs akvs skvs pre post preA postA preS postS pend1 rc1
      sc1 pid cb aid acb a1 s1 rows1 s hdec hp hv hpat hget hpre hkid hkname hpid
      hnew hcb has hpreA hakid haid hacb hsels hpreS hskid hskm hsgid hrej hplain
    exact restore_backup_abort_at F parse db op now blob jb kvs pre post _
      pend1 rc1 sc1 _ hop hdec hp hv hpat hget hpre
      (restorePatientEntry_assess_error db pend1 op now ekvs pid cb preA postA _
        a1 s1 _ hkid hkname hpid hnew hcb has hpreA
        (restoreAssessment_sel_error op now pid akvs aid acb preS postS _ rows1 _
          hakid haid hacb hsels hpreS
          (restoreSelection_bad_id aid skvs s hskid hskm hsgid
            (pyUuid_none_of_rejects s hrej))))
  · intro db blob e db2 h
    simp only [BackupApi.restore_backup] at h
    repeat' split at h
    all_goals simp only [Prod.mk.injEq] at h
    all_goals first
      | exact h.2.symm
      | exact absurd h.1 (by simp)
  · intro db blob resp db2 h
    simp only [BackupApi.restore_backup] at h
    repeat' split at h
    all_goals simp only [Prod.mk.injEq] at h
    all_goals first
      | exact ⟨_, _, _, h.2.symm⟩
      | exact absurd h.1 (by simp)

/-- Envelope of the C5 counterexample: a valid patient entry followed by one
whose id is not a UUID. -/
def c5doc : JVal :=
  .obj [("version", .str "1.0"),
        ("patients", .arr
          [.obj [("id", .str "55555555-5555-5555-5555-555555555555"),
                 ("name", .str "New")],
           .obj [("id", .str "xyz"), ("name", .str "A")]])]

/-- The encrypted blob of `c5doc` under the toy collaborators. -/
def c5blob : List Nat := EncSvc.encrypt_bytes toyFernet (dumpsToy c5doc)

set_option maxRecDepth 4000 in
/-- C5 counterexample: an invalid UUID aborts the whole operation before the
commit — the valid first entry is discarded with everything else, the store
coming back unchanged — but the rejection is NOT generic: its detail names
the offending field and value, differing from both the generic
corrupted-backup message and the format message, so the response discloses
which check failed. -/
theorem c5_uuid_rejection_counterexample :
    BackupApi.restore_backup toyFernet parseToy ⟨[], [], []⟩ adminU 99 c5blob =
      (.error (.http 400 ("Invalid UUID in backup data: patient.id="
        ++ pyRepr (.str "xyz"))), ⟨[], [], []⟩)
    ∧ ("Invalid UUID in backup data: patient.id=" ++ pyRepr (.str "xyz")) ≠
        "Invalid or corrupted backup file"
    ∧ ("Invalid UUID in backup data: patient.id=" ++ pyRepr (.str "xyz")) ≠
        "Invalid backup format" := by
  refine ⟨rfl, by decide, by decide⟩


/-- Valid patient entry of the first C5 witness document. -/
def c5wGood : JVal :=
  .obj [("id", .str "55555555-5555-5555-5555-555555555555"), ("name", .str "New")]

/-- Rejected-id patient entry of the C5 witness, second in its list. -/
def c5wBadP : List (String × JVal) := [("id", .str "xyz"), ("name", .str "A")]

/-- Envelope pairs of the first C5 witness document. -/
def c5wKvs1 : List (String × JVal) :=
  [("version", .str "1.0"), ("patients", .arr [c5wGood, .obj c5wBadP])]

/-- Pending row the valid first entry yields at restore time 99. -/
def c5wRow : PatientRow :=
  ⟨"55555555-5555-5555-5555-555555555555", some "New", none, none, none, none,
   none, none, none, none, 99, 99, some "a1"⟩

/-- Rejected-id assessment entry of the C5 witness. -/
def c5wBadA : List (String × JVal) := [("id", .str "abc")]

/-- Patient entry carrying the rejected assessment. -/
def c5wEntry2 : List (String × JVal) :=
  [("id", .str "66666666-6666-6666-6666-666666666666"), ("name", .str "B"),
   ("assessments", .arr [.obj c5wBadA])]

/-- Envelope pairs of the second C5 witness document. -/
def c5wKvs2 : List (String × JVal) :=
  [("version", .str "1.0"), ("patients", .arr [.obj c5wEntry2])]

/-- Rejected-id selection entry of the C5 witness. -/
def c5wBadS : List (String × JVal) := [("id", .str "zz"), ("mesh_id", .str "m")]

/-- Assessment entry carrying the rejected selection. -/
def c5wA3 : List (String × JVal) :=
  [("id", .str "88888888-8888-8888-8888-888888888888"),
   ("selections", .arr [.obj c5wBadS])]

/-- Patient entry carrying the nested rejected selection. -/
def c5wEntry3 : List (String × JVal) :=
  [("id", .str "77777777-7777-7777-7777-777777777777"), ("name", .str "C"),
   ("assessments", .arr [.obj c5wA3])]

/-- Envelope pairs of the third C5 witness document. -/
def c5wKvs3 : List (String × JVal) :=
  [("version", .str "1.0"), ("patients", .arr [.obj c5wEntry3])]

set_option maxRecDepth 8000 in
/-- Witness for C5 (amended) at concrete inputs: a blob failing decryption,
bytes failing to parse, envelopes missing the version tag or the patient
list, a non-list patient payload, a rejected id at every nesting level (the
second patient of its list, an assessment inside a fresh patient, a
selection two levels down), an error run leaving the store unchanged, and a
success run that only appends. -/
theorem c5_restore_all_or_nothing_witness :
    BackupApi.restore_backup toyFernet parseToy ⟨[], [], []⟩ adminU 99 [0] =
      (.error (.http 400 "Invalid or corrupted backup file"), ⟨[], [], []⟩)
    ∧ BackupApi.restore_backup toyFernet parseToy ⟨[], [], []⟩ adminU 99
        (EncSvc.encrypt_bytes toyFernet [255]) =
      (.error (.http 400 "Invalid or corrupted backup file"), ⟨[], [], []⟩)
    ∧ BackupApi.restore_backup toyFernet parseToy ⟨[], [], []⟩ adminU 99
        (EncSvc.encrypt_bytes toyFernet (dumpsToy (.obj []))) =
      (.error (.http 400 "Invalid backup format"), ⟨[], [], []⟩)
    ∧ BackupApi.restore_backup toyFernet parseToy ⟨[], [], []⟩ adminU 99
        (EncSvc.encrypt_bytes toyFernet (dumpsToy (.obj [("version", .str "1.0")]))) =
      (.error (.http 400 "Invalid backup format"), ⟨[], [], []⟩)
    ∧ BackupApi.restore_backup toyFernet parseToy ⟨[], [], []⟩ adminU 99
        (EncSvc.encrypt_bytes toyFernet (dumpsToy
          (.obj [("version", .str "1.0"), ("patients", .str "no")]))) =
      (.error (.http 400 "Invalid backup format: patients must be a list"),
       ⟨[], [], []⟩)
    ∧ BackupApi.restore_backup toyFernet parseToy ⟨[], [], []⟩ adminU 99
        (EncSvc.encrypt_bytes toyFernet (dumpsToy (.obj c5wKvs1))) =
      (.error (.http 400 ("Invalid UUID in backup data: patient.id="
        ++ pyRepr (.str "xyz"))), ⟨[], [], []⟩)
    ∧ BackupApi.restore_backup toyFernet parseToy ⟨[], [], []⟩ adminU 99
        (EncSvc.encrypt_bytes toyFernet (dumpsToy (.obj c5wKvs2))) =
      (.error (.http 400 ("Invalid UUID in backup data: assessment.id="
        ++ pyRepr (.str "abc"))), ⟨[], [], []⟩)
    ∧ BackupApi.restore_backup toyFernet parseToy ⟨[], [], []⟩ adminU 99
        (EncSvc.encrypt_bytes toyFernet (dumpsToy (.obj c5wKvs3))) =
      (.error (.http 400 ("Invalid UUID in backup data: selection.id="
        ++ pyRepr (.str "zz"))), ⟨[], [], []⟩)
    ∧ (⟨[p0], [], []⟩ : ClinDB) = ⟨[p0], [], []⟩
    ∧ ∃ newP newA newS, (⟨[p0], [], []⟩ : ClinDB) =
        ⟨[p0] ++ newP, [] ++ newA, [] ++ newS⟩ := by
  have C := c5_restore_all_or_nothing toyFernet parseToy adminU 99 rfl
  refine ⟨?_, ?_, ?_, ?_, ?_, ?_, ?_, ?_, ?_, ?_⟩
  · exact C.1 ⟨[], [], []⟩ [0] rfl
  · exact C.2.1 ⟨[], [], []⟩ _ [255] (toyFernet_bytes_roundtrip _) rfl
  · exact C.2.2.1 ⟨[], [], []⟩ _ _ [] (toyFernet_bytes_roundtrip _) rfl rfl
  · exact C.2.2.2.1 ⟨[], [], []⟩ _ _ [("version", .str "1.0")]
      (toyFernet_bytes_roundtrip _) rfl rfl rfl
  · exact C.2.2.2.2.1 ⟨[], [], []⟩ _ _
      [("version", .str "1.0"), ("patients", .str "no")] (.str "no")
      (toyFernet_bytes_roundtrip _) rfl rfl rfl rfl (fun xs h => nomatch h)
  · exact C.2.2.2.2.2.1 ⟨[], [], []⟩ _ _ c5wKvs1 c5wBadP [c5wGood] []
      ⟨[c5wRow], [], []⟩ 1 0 "xyz" (toyFernet_bytes_roundtrip _) rfl rfl rfl
      rfl rfl rfl rfl rfl rfl rfl
  · exact C.2.2.2.2.2.2.1 ⟨[], [], []⟩ _ _ c5wKvs2 c5wEntry2 c5wBadA [] [] []
      [] ⟨[], [], []⟩ 0 0 "66666666-6666-6666-6666-666666666666" "a1" [] []
      "abc" (toyFernet_bytes_roundtrip _) rfl rfl rfl rfl rfl rfl rfl rfl rfl
      rfl rfl rfl rfl rfl rfl rfl
  · exact C.2.2.2.2.2.2.2.1 ⟨[], [], []⟩ _ _ c5wKvs3 c5wEntry3 c5wA3 c5wBadS
      [] [] [] [] [] [] ⟨[], [], []⟩ 0 0
      "77777777-7777-7777-7777-777777777777" "a1"
      "88888888-8888-8888-8888-888888888888" "a1" [] [] [] "zz"
      (toyFernet_bytes_roundtrip _) rfl rfl rfl rfl rfl rfl rfl rfl rfl rfl
      rfl rfl rfl rfl rfl rfl rfl rfl rfl rfl rfl rfl
  · exact C.2.2.2.2.2.2.2.2.1 ⟨[p0], [], []⟩ [0]
      (.http 400 "Invalid or corrupted backup file") ⟨[p0], [], []⟩ rfl
  · exact C.2.2.2.2.2.2.2.2.2 ⟨[p0], [], []⟩
      (EncSvc.encrypt_bytes toyFernet (dumpsToy
        (.obj [("version", .str "1.0"), ("patients", .arr [])])))
      ⟨"Backup restored successfully", 0⟩ ⟨[p0], [], []⟩ rfl
